import Mathlib

/-!
# lightsd: discovery controller, option parsing and gateway tag labels

Shallow embedding of `lifx/discovery.c` (discovery timer and watchdog), of the
option loop of `core/lightsd.c` (`main`) and of the tag-label handler exercised
by `tests/lifx/gateway/test_gateway_handle_tag_labels.c`.

Conventions.
* A C `int` is an `Int`; where the C code can leave the 32-bit range the value
  is reduced with `wrap_int` (two's complement).
* A C string is the `List Char` of its characters before the terminating NUL.
* Global variables are fields of explicit state records; calls into libevent
  and into absent translation units are recorded as effects in those records,
  and their return values are inputs.
-/

namespace Lightsd

/-! ## Definitions -/

/-- Smallest value of a C `int`. -/
def INT_MIN : Int := -2147483648

/-- Largest value of a C `int`. -/
def INT_MAX : Int := 2147483647

/-- Value stored in a 32-bit two's complement `int` for the mathematical
integer `x` (identity on `INT_MIN .. INT_MAX`, reduction modulo 2^32 outside). -/
def wrap_int (x : Int) : Int := (x + 2147483648) % 4294967296 - 2147483648

/-- Modelled from the spec: the constants of `lifx/discovery.h`, a header that is
not among the sources. `discovery.c` only names them, so every definition below
takes them as a parameter. -/
structure lgtd_lifx_discovery_constants where
  LGTD_LIFX_DISCOVERY_ACTIVE_DISCOVERY_INTERVAL_MSECS : Int
  LGTD_LIFX_DISCOVERY_PASSIVE_DISCOVERY_INTERVAL_MSECS : Int
  LGTD_LIFX_DISCOVERY_DEVICE_TIMEOUT_MSECS : Int
  LGTD_LIFX_DISCOVERY_DEVICE_FORCE_REFRESH_MSECS : Int
  LGTD_LIFX_DISCOVERY_WATCHDOG_INTERVAL_MSECS : Int
deriving DecidableEq, Repr

/-- Modelled from the spec: the default values the spec gives for the constants
(active 2 000 ms, passive cap 60 000 ms, device timeout 30 000 ms, forced refresh
5 000 ms, watchdog 5 000 ms). -/
def spec_constants : lgtd_lifx_discovery_constants :=
  { LGTD_LIFX_DISCOVERY_ACTIVE_DISCOVERY_INTERVAL_MSECS := 2000
    LGTD_LIFX_DISCOVERY_PASSIVE_DISCOVERY_INTERVAL_MSECS := 60000
    LGTD_LIFX_DISCOVERY_DEVICE_TIMEOUT_MSECS := 30000
    LGTD_LIFX_DISCOVERY_DEVICE_FORCE_REFRESH_MSECS := 5000
    LGTD_LIFX_DISCOVERY_WATCHDOG_INTERVAL_MSECS := 5000 }

/-- Constants for which the back-off arithmetic stays inside a C `int`:
`0 ≤ ACTIVE ≤ PASSIVE` and `2 * PASSIVE ≤ INT_MAX`. -/
def lgtd_lifx_discovery_constants.intervals_ok (k : lgtd_lifx_discovery_constants) : Prop :=
  0 ≤ k.LGTD_LIFX_DISCOVERY_ACTIVE_DISCOVERY_INTERVAL_MSECS ∧
  k.LGTD_LIFX_DISCOVERY_ACTIVE_DISCOVERY_INTERVAL_MSECS ≤
    k.LGTD_LIFX_DISCOVERY_PASSIVE_DISCOVERY_INTERVAL_MSECS ∧
  2 * k.LGTD_LIFX_DISCOVERY_PASSIVE_DISCOVERY_INTERVAL_MSECS ≤ INT_MAX

instance (k : lgtd_lifx_discovery_constants) : Decidable k.intervals_ok := by
  unfold lgtd_lifx_discovery_constants.intervals_ok
  exact inferInstance

/-- Modelled from the spec: the macro `LGTD_MIN` of `core/lightsd.h` (absent),
the smaller of its two arguments. -/
def LGTD_MIN (a b : Int) : Int := if a < b then a else b

/-- One gateway-local tag: the label stored in a slot of `gw->tags`. -/
structure lgtd_lifx_tag where
  label : List Char
deriving DecidableEq, Repr

/-- The fields of `struct lgtd_lifx_gateway` (declared in the absent `gateway.h`)
that the embedded code reads or writes: the peer address that identifies the
gateway, the bitmap `tag_ids` and the 64 slots of `tags`. -/
structure lgtd_lifx_gateway where
  peeraddr : List Char
  tag_ids : Nat
  tags : Fin 64 → Option lgtd_lifx_tag

/-- How the process ended: `exit(status)` (reached through `lgtd_err`,
`lgtd_errx`, `lgtd_usage` or a `return` of `main`), or `abort()` from a failed
`assert`. -/
inductive lgtd_termination where
  | exit (status : Int)
  | abort
deriving DecidableEq, Repr

/-- The file-scope state of `discovery.c` together with the effects of its
calls: `lgtd_discovery_timeout` is the static `int`; `lgtd_discovery_timeout_ev`
is `some t` when the discovery timer is pending with a timeout of `t`
milliseconds (the argument of `LGTD_MSECS_TO_TIMEVAL` at the last successful
`event_add`); `broadcasts` counts the calls of `lgtd_lifx_broadcast_discovery`;
`terminated` records the end of the process. -/
structure lgtd_lifx_discovery where
  lgtd_discovery_timeout : Int
  lgtd_discovery_timeout_ev : Option Int
  broadcasts : Nat
  terminated : Option lgtd_termination
deriving DecidableEq, Repr

/-- Return values of the two external calls of the discovery timer callback:
`event_add` (0 on success) and `lgtd_lifx_broadcast_discovery` (true on
success). -/
structure lgtd_discovery_env where
  event_add : Int
  lgtd_lifx_broadcast_discovery : Bool
deriving DecidableEq, Repr

/-- Embedding of `lgtd_lifx_discovery_timeout_event_callback` (discovery.c:44-76).
The product `lgtd_discovery_timeout * 2` is an `int` product, hence `wrap_int`.
`event_add(...) || !lgtd_lifx_broadcast_discovery()` short-circuits: the
broadcast is attempted only when the timer was re-armed, and either failure ends
the process through `lgtd_err(1, ...)`. -/
def lgtd_lifx_discovery_timeout_event_callback (k : lgtd_lifx_discovery_constants)
    (env : lgtd_discovery_env) (lgtd_lifx_gateways : List lgtd_lifx_gateway)
    (s : lgtd_lifx_discovery) : lgtd_lifx_discovery :=
  let t : Int :=
    if lgtd_lifx_gateways.isEmpty then
      k.LGTD_LIFX_DISCOVERY_ACTIVE_DISCOVERY_INTERVAL_MSECS
    else
      LGTD_MIN (wrap_int (s.lgtd_discovery_timeout * 2))
        k.LGTD_LIFX_DISCOVERY_PASSIVE_DISCOVERY_INTERVAL_MSECS
  if env.event_add ≠ 0 then
    { s with lgtd_discovery_timeout := t
             terminated := some (lgtd_termination.exit 1) }
  else if env.lgtd_lifx_broadcast_discovery = false then
    { s with lgtd_discovery_timeout := t
             lgtd_discovery_timeout_ev := some t
             broadcasts := s.broadcasts + 1
             terminated := some (lgtd_termination.exit 1) }
  else
    { s with lgtd_discovery_timeout := t
             lgtd_discovery_timeout_ev := some t
             broadcasts := s.broadcasts + 1 }

/-- Embedding of `lgtd_lifx_discovery_start` (discovery.c:207-216): the `assert`
aborts when the timer is already pending; otherwise the interval is reset and
the callback is called directly. -/
def lgtd_lifx_discovery_start (k : lgtd_lifx_discovery_constants)
    (env : lgtd_discovery_env) (lgtd_lifx_gateways : List lgtd_lifx_gateway)
    (s : lgtd_lifx_discovery) : lgtd_lifx_discovery :=
  if s.lgtd_discovery_timeout_ev.isSome then
    { s with terminated := some lgtd_termination.abort }
  else
    lgtd_lifx_discovery_timeout_event_callback k env lgtd_lifx_gateways
      { s with lgtd_discovery_timeout :=
                 k.LGTD_LIFX_DISCOVERY_ACTIVE_DISCOVERY_INTERVAL_MSECS }

/-- What the event loop supplies at one expiry of the discovery timer: the
gateway list at that moment and the results of the external calls. -/
structure lgtd_discovery_fire where
  env : lgtd_discovery_env
  lgtd_lifx_gateways : List lgtd_lifx_gateway

/-- One expiry of the discovery timer as the event loop runs it: nothing runs
any more once the process has ended; otherwise the timer, created without
`EV_PERSIST` (discovery.c:148-154), is no longer pending when its callback
runs. -/
def discovery_fire (k : lgtd_lifx_discovery_constants) (s : lgtd_lifx_discovery)
    (f : lgtd_discovery_fire) : lgtd_lifx_discovery :=
  if s.terminated.isSome then s
  else
    lgtd_lifx_discovery_timeout_event_callback k f.env f.lgtd_lifx_gateways
      { s with lgtd_discovery_timeout_ev := none }

/-- State after a sequence of consecutive expiries of the discovery timer. -/
def discovery_run (k : lgtd_lifx_discovery_constants) (s : lgtd_lifx_discovery)
    (fires : List lgtd_discovery_fire) : lgtd_lifx_discovery :=
  fires.foldl (discovery_fire k) s

/-- The values of `lgtd_discovery_timeout` along a run: the value in `s`, then
the value after each expiry. -/
def discovery_intervals (k : lgtd_lifx_discovery_constants) :
    lgtd_lifx_discovery → List lgtd_discovery_fire → List Int
  | s, [] => [s.lgtd_discovery_timeout]
  | s, f :: fires =>
    s.lgtd_discovery_timeout :: discovery_intervals k (discovery_fire k s f) fires

/-- A gateway with no tags, used in examples. -/
def example_gateway : lgtd_lifx_gateway :=
  { peeraddr := "192.0.2.10:56700".toList, tag_ids := 0, tags := fun _ => none }

/-- Results of external calls that all succeed. -/
def env_ok : lgtd_discovery_env :=
  { event_add := 0, lgtd_lifx_broadcast_discovery := true }

/-- The state of `discovery.c` before `lgtd_lifx_discovery_start`: the static
initialiser of `lgtd_discovery_timeout`, no pending timer, nothing sent. -/
def discovery_init (k : lgtd_lifx_discovery_constants) : lgtd_lifx_discovery :=
  { lgtd_discovery_timeout := k.LGTD_LIFX_DISCOVERY_ACTIVE_DISCOVERY_INTERVAL_MSECS
    lgtd_discovery_timeout_ev := none
    broadcasts := 0
    terminated := none }

/-- The fields of `struct lgtd_lifx_bulb` (declared in the absent `bulb.h`) that
the watchdog reads: the device address (key of `lgtd_lifx_bulbs_table`), the
owning gateway `bulb->gw` (named by its peer address) and the 64-bit monotonic
time in milliseconds of the last light state. -/
structure lgtd_lifx_bulb where
  addr : Nat
  gw : List Char
  last_light_state_at : Nat
deriving DecidableEq, Repr

/-- The globals the watchdog works on and the effects of one run:
`lgtd_lifx_bulbs_table` in key order, the list `lgtd_lifx_gateways`, the
arguments of the calls of `lgtd_lifx_gateway_remove_and_close_bulb`,
`lgtd_lifx_gateway_close` and `lgtd_lifx_gateway_force_refresh` in call order,
the local `start_discovery`, and the state of the discovery timer. -/
structure lgtd_watchdog where
  lgtd_lifx_bulbs_table : List lgtd_lifx_bulb
  lgtd_lifx_gateways : List lgtd_lifx_gateway
  closed_bulbs : List lgtd_lifx_bulb
  closed_gateways : List lgtd_lifx_gateway
  refreshed_gateways : List lgtd_lifx_gateway
  start_discovery : Bool
  discovery : lgtd_lifx_discovery

/-- The local `int light_state_lag = now - bulb->last_light_state_at`
(discovery.c:97): a subtraction of 64-bit `lgtd_time_mono_t` values converted to
a 32-bit `int`. -/
def light_state_lag (now : Nat) (bulb : lgtd_lifx_bulb) : Int :=
  wrap_int (((now : Int) - (bulb.last_light_state_at : Int)) % 18446744073709551616)

/-- Modelled from the spec: `lgtd_lifx_gateway_remove_and_close_bulb` of the
absent `gateway.c`; the spec says the watchdog has the bulb closed and removed
from the registry. -/
def lgtd_lifx_gateway_remove_and_close_bulb (bulb : lgtd_lifx_bulb)
    (w : lgtd_watchdog) : lgtd_watchdog :=
  { w with lgtd_lifx_bulbs_table := w.lgtd_lifx_bulbs_table.erase bulb
           closed_bulbs := w.closed_bulbs ++ [bulb] }

/-- Modelled from the spec: `lgtd_lifx_gateway_close` of the absent `gateway.c`;
the spec says closing a gateway removes the bulbs it owns and removes it from
the gateway list. -/
def lgtd_lifx_gateway_close (gw : lgtd_lifx_gateway) (w : lgtd_watchdog) : lgtd_watchdog :=
  { w with lgtd_lifx_gateways :=
             w.lgtd_lifx_gateways.filter (fun g => decide (g.peeraddr ≠ gw.peeraddr))
           lgtd_lifx_bulbs_table :=
             w.lgtd_lifx_bulbs_table.filter (fun b => decide (b.gw ≠ gw.peeraddr))
           closed_gateways := w.closed_gateways ++ [gw] }

/-- Modelled from the spec: `lgtd_lifx_gateway_force_refresh` of the absent
`gateway.c`, a forced `GetLightState` to the bulbs of the gateway; only the call
is recorded. -/
def lgtd_lifx_gateway_force_refresh (gw : lgtd_lifx_gateway) (w : lgtd_watchdog) :
    lgtd_watchdog :=
  { w with refreshed_gateways := w.refreshed_gateways ++ [gw] }

/-- The loop `RB_FOREACH_SAFE` over the bulbs (discovery.c:90-107), run over the
bulbs that remain to be visited. -/
def watchdog_bulbs (k : lgtd_lifx_discovery_constants) (now : Nat) :
    List lgtd_lifx_bulb → lgtd_watchdog → lgtd_watchdog
  | [], w => w
  | bulb :: next_bulb, w =>
    if light_state_lag now bulb ≥ k.LGTD_LIFX_DISCOVERY_DEVICE_TIMEOUT_MSECS then
      watchdog_bulbs k now next_bulb
        { lgtd_lifx_gateway_remove_and_close_bulb bulb w with start_discovery := true }
    else
      watchdog_bulbs k now next_bulb w

/-- The loop `LIST_FOREACH_SAFE` over the gateways (discovery.c:112-133), run
over the gateways that remain to be visited. `msecs_since_last_update gw` is the
`int` returned by `lgtd_lifx_gateway_msecs_since_last_update(gw)`, a function of
the absent `gateway.c`. -/
def watchdog_gateways (k : lgtd_lifx_discovery_constants)
    (msecs_since_last_update : lgtd_lifx_gateway → Int) :
    List lgtd_lifx_gateway → lgtd_watchdog → lgtd_watchdog
  | [], w => w
  | gw :: next_gw, w =>
    let gw_lag := msecs_since_last_update gw
    if gw_lag ≥ k.LGTD_LIFX_DISCOVERY_DEVICE_TIMEOUT_MSECS then
      watchdog_gateways k msecs_since_last_update next_gw
        { lgtd_lifx_gateway_close gw w with start_discovery := true }
    else if gw_lag ≥ k.LGTD_LIFX_DISCOVERY_DEVICE_FORCE_REFRESH_MSECS then
      watchdog_gateways k msecs_since_last_update next_gw
        (lgtd_lifx_gateway_force_refresh gw w)
    else
      watchdog_gateways k msecs_since_last_update next_gw w

/-- The state at the head of the watchdog callback: nothing closed or refreshed
yet, `start_discovery = false`. -/
def watchdog_enter (table : List lgtd_lifx_bulb) (gws : List lgtd_lifx_gateway)
    (d : lgtd_lifx_discovery) : lgtd_watchdog :=
  { lgtd_lifx_bulbs_table := table
    lgtd_lifx_gateways := gws
    closed_bulbs := []
    closed_gateways := []
    refreshed_gateways := []
    start_discovery := false
    discovery := d }

/-- Embedding of `lgtd_lifx_discovery_watchdog_interval_callback`
(discovery.c:78-140). `now` is the value of `lgtd_time_monotonic_msecs()`. The
return value of the final `lgtd_lifx_broadcast_discovery()` is ignored by the
code. -/
def lgtd_lifx_discovery_watchdog_interval_callback (k : lgtd_lifx_discovery_constants)
    (now : Nat) (msecs_since_last_update : lgtd_lifx_gateway → Int)
    (table : List lgtd_lifx_bulb) (gws : List lgtd_lifx_gateway)
    (d : lgtd_lifx_discovery) : lgtd_watchdog :=
  let w1 := watchdog_bulbs k now table (watchdog_enter table gws d)
  let w2 := watchdog_gateways k msecs_since_last_update w1.lgtd_lifx_gateways w1
  if w2.start_discovery then
    { w2 with discovery := { w2.discovery with broadcasts := w2.discovery.broadcasts + 1 } }
  else
    w2

/-- A bulb of the gateway `example_gateway`, used in examples. -/
def example_bulb (addr last_light_state_at : Nat) : lgtd_lifx_bulb :=
  { addr := addr, gw := example_gateway.peeraddr, last_light_state_at := last_light_state_at }

/-! ### `core/lightsd.c` -/

/-- The global `struct lgtd_opts lgtd_opts` (lightsd.c:55-65); `verbosity` holds
a value of `enum lgtd_verbosity`, `user` and `group` are `char *` (`none` for
`NULL`). -/
structure lgtd_opts where
  foreground : Bool
  log_timestamps : Bool
  verbosity : Int
  user : Option (List Char)
  group : Option (List Char)
deriving DecidableEq, Repr

/-- The static initialiser of `lgtd_opts` (lightsd.c:55-65). The initial
verbosity is `LGTD_INFO` or `LGTD_WARN` depending on `NDEBUG`; the enum is
declared in the absent `lightsd.h`, so the value is a parameter. -/
def lgtd_opts_init (verbosity : Int) : lgtd_opts :=
  { foreground := true, log_timestamps := true, verbosity := verbosity,
    user := none, group := none }

/-- A list of characters that represents a C string: no NUL inside. -/
def is_c_string (s : List Char) : Prop := ∀ c ∈ s, c ≠ Char.ofNat 0

instance (s : List Char) : Decidable (is_c_string s) := by
  unfold is_c_string
  exact inferInstance

/-- The libc function `strcasecmp` in the C locale: compares the two strings
character by character after `tolower` and returns the difference of the first
pair that differs (the end of a list stands for the terminating NUL), 0 when
there is none. -/
def strcasecmp : List Char → List Char → Int
  | [], [] => 0
  | [], c2 :: _ => 0 - (c2.toLower.toNat : Int)
  | c1 :: _, [] => (c1.toLower.toNat : Int) - 0
  | c1 :: s1, c2 :: s2 =>
    if c1.toLower = c2.toLower then strcasecmp s1 s2
    else (c1.toLower.toNat : Int) - (c2.toLower.toNat : Int)

/-- The libc call `sep = strrchr(optarg, ':')` followed by `*sep = 0`: `none`
when there is no colon, otherwise the text before the last colon (what `optarg`
then points to) and the text after it (`sep + 1`). -/
def strrchr_colon : List Char → Option (List Char × List Char)
  | [] => none
  | c :: cs =>
    match strrchr_colon cs with
    | some (before, after) => some (c :: before, after)
    | none => if c = ':' then some ([], cs) else none

/-- The array `verbose_levels` (lightsd.c:239-241). -/
def verbose_levels : List (List Char) :=
  ["debug".toList, "info".toList, "warning".toList, "error".toList]

/-- The loop `for (int i = 0;;)` of case `'v'` (lightsd.c:238-249), run over
the levels from index `i` on: `some i` when the loop leaves through `break`
with `lgtd_opts.verbosity = i`, `none` when `++i` reaches the size of the array
and `lgtd_errx(1, ...)` is called. -/
def verbosity_loop (optarg : List Char) : List (List Char) → Int → Option Int
  | [], _ => none
  | level :: rest, i =>
    if strcasecmp optarg level = 0 then some i
    else verbosity_loop optarg rest (i + 1)

/-- A value returned by `getopt_long` for `short_opts`/`long_opts`
(lightsd.c:174-190) with the `optarg` it leaves: options declared with
`required_argument` always come with their argument; for `-d`, which falls
through to the code of `-u`, `optarg` is what `getopt_long` leaves for an option
without argument (`NULL` with glibc and the BSD libc). `unknown` is any value
handled by `default:`. -/
inductive lgtd_getopt where
  | l (optarg : List Char)
  | c (optarg : List Char)
  | s (optarg : List Char)
  | f
  | d (optarg : Option (List Char))
  | u (optarg : List Char)
  | g (optarg : List Char)
  | t
  | h
  | v (optarg : List Char)
  | V
  | p
  | r
  | unknown
deriving DecidableEq, Repr

/-- Results of the calls `main` makes into libc, libevent and absent translation
units. `sigaction` is the return value of the call in
`lgtd_configure_signal_handling` (0 on success). The
`lgtd_daemon_*` entries are `some status` when the call ends the process with
that status and `none` when it returns; `event_base_dispatch` is `some st` when
a callback ends the process during the event loop and `none` when the loop
returns. -/
structure lgtd_main_env where
  sigaction : Int
  lgtd_listen_open : List Char → List Char → Bool
  lgtd_command_pipe_open : List Char → Bool
  lgtd_listen_unix_open : List Char → Bool
  lgtd_daemon_set_user : List Char → Option lgtd_termination
  lgtd_daemon_set_group : Option (List Char) → Option lgtd_termination
  lgtd_daemon_drop_privileges : Option lgtd_termination
  lgtd_daemon_die_if_running_as_root_unless_requested :
    Option (List Char) → Option lgtd_termination
  lgtd_lifx_discovery_setup : Bool
  lgtd_lifx_broadcast_setup : Bool
  lgtd_daemon_unleash : Bool
  discovery_start : lgtd_discovery_env
  event_base_dispatch : Option lgtd_termination

/-- Outcome of the option loop of `main`: `go_on` with the current `lgtd_opts`
when the loop continues (or has consumed every option), `exit status` when the
process ends with `status` inside the loop. -/
inductive lgtd_parsed where
  | go_on (opts : lgtd_opts)
  | exit (status : Int)
deriving DecidableEq, Repr

/-- The body of the `switch (rv)` in `main` (lightsd.c:199-271) for one value
returned by `getopt_long` (`lgtd_usage` calls `exit(0)`, `lgtd_errx(1, ...)`
exits with 1, `return 0` leaves `main`). Case `'d'` has no `break` and runs
into case `'u'`. -/
def lgtd_main_option (env : lgtd_main_env) (rv : lgtd_getopt) (opts : lgtd_opts) :
    lgtd_parsed :=
  match rv with
  | lgtd_getopt.l optarg =>
    match strrchr_colon optarg with
    | none => lgtd_parsed.exit 0
    | some (addr, port) =>
      if port = [] then lgtd_parsed.exit 0
      else if env.lgtd_listen_open addr port then lgtd_parsed.go_on opts
      else lgtd_parsed.exit 1
  | lgtd_getopt.c optarg =>
    if env.lgtd_command_pipe_open optarg then lgtd_parsed.go_on opts else lgtd_parsed.exit 1
  | lgtd_getopt.s optarg =>
    if env.lgtd_listen_unix_open optarg then lgtd_parsed.go_on opts else lgtd_parsed.exit 1
  | lgtd_getopt.f => lgtd_parsed.go_on { opts with foreground := true }
  | lgtd_getopt.d optarg => lgtd_parsed.go_on { opts with foreground := false, user := optarg }
  | lgtd_getopt.u optarg => lgtd_parsed.go_on { opts with user := some optarg }
  | lgtd_getopt.g optarg => lgtd_parsed.go_on { opts with group := some optarg }
  | lgtd_getopt.t => lgtd_parsed.go_on { opts with log_timestamps := false }
  | lgtd_getopt.h => lgtd_parsed.exit 0
  | lgtd_getopt.v optarg =>
    match verbosity_loop optarg verbose_levels 0 with
    | some i => lgtd_parsed.go_on { opts with verbosity := i }
    | none => lgtd_parsed.exit 1
  | lgtd_getopt.V => lgtd_parsed.exit 0
  | lgtd_getopt.p => lgtd_parsed.exit 0
  | lgtd_getopt.r => lgtd_parsed.exit 0
  | lgtd_getopt.unknown => lgtd_parsed.exit 0

/-- The loop over `getopt_long` in `main` (lightsd.c:196-272), run over the
values `getopt_long` returns before -1. -/
def lgtd_main_options (env : lgtd_main_env) :
    List lgtd_getopt → lgtd_opts → lgtd_parsed
  | [], opts => lgtd_parsed.go_on opts
  | rv :: rest, opts =>
    match lgtd_main_option env rv opts with
    | lgtd_parsed.go_on opts1 => lgtd_main_options env rest opts1
    | lgtd_parsed.exit status => lgtd_parsed.exit status

/-- The user and group block of `main` (lightsd.c:277-283): `some` termination when
the process ends there. -/
def lgtd_main_privileges (env : lgtd_main_env) (opts : lgtd_opts) :
    Option lgtd_termination :=
  match opts.user with
  | some user =>
    match env.lgtd_daemon_set_user user with
    | some st => some st
    | none =>
      match env.lgtd_daemon_set_group opts.group with
      | some st => some st
      | none => env.lgtd_daemon_drop_privileges
  | none =>
    if opts.group.isSome then some (lgtd_termination.exit 1) else none

/-- The rest of `main` after the option loop (lightsd.c:277-309). The gateway
list is empty when `lgtd_lifx_discovery_start` runs: no event has been
dispatched yet. -/
def lgtd_main_run (k : lgtd_lifx_discovery_constants) (env : lgtd_main_env)
    (opts : lgtd_opts) : lgtd_termination :=
  match lgtd_main_privileges env opts with
  | some st => st
  | none =>
    match env.lgtd_daemon_die_if_running_as_root_unless_requested opts.user with
    | some st => st
    | none =>
      if !env.lgtd_lifx_discovery_setup || !env.lgtd_lifx_broadcast_setup then
        lgtd_termination.exit 1
      else if !opts.foreground && !env.lgtd_daemon_unleash then
        lgtd_termination.exit 1
      else
        match (lgtd_lifx_discovery_start k env.discovery_start []
                (discovery_init k)).terminated with
        | some st => st
        | none =>
          match env.event_base_dispatch with
          | some st => st
          | none => lgtd_termination.exit 0

/-- Embedding of `main` (lightsd.c:160-310): `argc` is the argument count, `rvs`
the values `getopt_long` returns before -1, `opts` the initial `lgtd_opts`.
The result is how the process ends. `lgtd_configure_signal_handling`
(lightsd.c:105-126) ends the process through `lgtd_err(1, ...)` when `sigaction`
fails; `lgtd_usage` (called when `argc == 1`) calls `exit(0)`. -/
def lgtd_main (k : lgtd_lifx_discovery_constants) (env : lgtd_main_env) (argc : Nat)
    (rvs : List lgtd_getopt) (opts : lgtd_opts) : lgtd_termination :=
  if env.sigaction ≠ 0 then lgtd_termination.exit 1
  else if argc = 1 then lgtd_termination.exit 0
  else
    match lgtd_main_options env rvs opts with
    | lgtd_parsed.exit status => lgtd_termination.exit status
    | lgtd_parsed.go_on opts1 => lgtd_main_run k env opts1

/-- Results of external calls of `main` that all succeed, with an event loop
that returns. -/
def main_env_ok : lgtd_main_env :=
  { sigaction := 0
    lgtd_listen_open := fun _ _ => true
    lgtd_command_pipe_open := fun _ => true
    lgtd_listen_unix_open := fun _ => true
    lgtd_daemon_set_user := fun _ => none
    lgtd_daemon_set_group := fun _ => none
    lgtd_daemon_drop_privileges := none
    lgtd_daemon_die_if_running_as_root_unless_requested := fun _ => none
    lgtd_lifx_discovery_setup := true
    lgtd_lifx_broadcast_setup := true
    lgtd_daemon_unleash := true
    discovery_start := env_ok
    event_base_dispatch := none }

/-! ### Gateway tag labels -/

/-- The payload of a `TagLabels` packet, as built by
`test_gateway_handle_tag_labels.c`: the 64-bit bitmap `tags` and the `label`
(the characters of `char label[]` before the first NUL). -/
structure lgtd_lifx_packet_tag_labels where
  tags : Nat
  label : List Char
deriving DecidableEq, Repr

/-- Modelled from the spec: the allocation of slot `tag_id` of a gateway, a step
of the absent `gateway.c`. The slot receives the label and bit `tag_id` of
`tag_ids` is set (the test expects `gw.tag_ids` to be the union of the bitmaps
handled). -/
def lgtd_lifx_gateway_allocate_tag_id (gw : lgtd_lifx_gateway) (tag_id : Fin 64)
    (label : List Char) : lgtd_lifx_gateway :=
  { gw with tag_ids := gw.tag_ids ||| (1 <<< tag_id.val)
            tags := Function.update gw.tags tag_id (some { label := label }) }

/-- Modelled from the spec: the body of the loop over the tag ids of the
bitmap in `lgtd_lifx_gateway_handle_tag_labels` (absent `gateway.c`). The spec
says an incoming `TagLabels` updates the label of each slot named by the bitmap,
and that an empty label must not clear a known label: when bit `tag_id` is set
in `pkt.tags`, a non-empty label is stored in the slot and an empty one changes
nothing. -/
def handle_tag_labels_step (pkt : lgtd_lifx_packet_tag_labels) (gw : lgtd_lifx_gateway)
    (tag_id : Fin 64) : lgtd_lifx_gateway :=
  if pkt.tags.testBit tag_id.val = true ∧ pkt.label ≠ [] then
    lgtd_lifx_gateway_allocate_tag_id gw tag_id pkt.label
  else gw

/-- Modelled from the spec: `lgtd_lifx_gateway_handle_tag_labels` of the absent
`gateway.c` (only its test is among the sources; the packet header argument,
which the test leaves zeroed, is omitted): the step above for the tag ids 0 to
63 in order. -/
def lgtd_lifx_gateway_handle_tag_labels (gw : lgtd_lifx_gateway)
    (pkt : lgtd_lifx_packet_tag_labels) : lgtd_lifx_gateway :=
  (List.finRange 64).foldl (handle_tag_labels_step pkt) gw

/-- The value `TAG_ID_TO_VALUE(x)` used by the test: bit `x` alone. -/
def TAG_ID_TO_VALUE (x : Nat) : Nat := 1 <<< x

/-- The gateway of the test after `memset(&gw, 0, sizeof(gw))`. -/
def zero_gateway : lgtd_lifx_gateway :=
  { peeraddr := [], tag_ids := 0, tags := fun _ => none }

/-- The gateway at the end of `main` of `test_gateway_handle_tag_labels.c`: the
zeroed gateway after the packets (`test`, 0), (`test`, bit 42),
(`toto`, bits 2 and 4) and the all-zero packet. -/
def test_gateway_handle_tag_labels : lgtd_lifx_gateway :=
  lgtd_lifx_gateway_handle_tag_labels
    (lgtd_lifx_gateway_handle_tag_labels
      (lgtd_lifx_gateway_handle_tag_labels
        (lgtd_lifx_gateway_handle_tag_labels zero_gateway
          { tags := 0, label := "test".toList })
        { tags := TAG_ID_TO_VALUE 42, label := "test".toList })
      { tags := TAG_ID_TO_VALUE 2 ||| TAG_ID_TO_VALUE 4, label := "toto".toList })
    { tags := 0, label := [] }

/-- Constants with `ACTIVE = PASSIVE = 2^30`: they satisfy `ACTIVE ≤ PASSIVE`,
but twice the passive interval does not fit a C `int`. -/
def wide_constants : lgtd_lifx_discovery_constants :=
  { spec_constants with
    LGTD_LIFX_DISCOVERY_ACTIVE_DISCOVERY_INTERVAL_MSECS := 1073741824
    LGTD_LIFX_DISCOVERY_PASSIVE_DISCOVERY_INTERVAL_MSECS := 1073741824 }

/-- Constants with a negative active interval: they satisfy `ACTIVE ≤ PASSIVE`
too. -/
def negative_constants : lgtd_lifx_discovery_constants :=
  { spec_constants with LGTD_LIFX_DISCOVERY_ACTIVE_DISCOVERY_INTERVAL_MSECS := -1 }

/-! ## Theorems -/

theorem wrap_int_of_range (x : Int) (h1 : INT_MIN ≤ x) (h2 : x ≤ INT_MAX) :
    wrap_int x = x := by
  unfold wrap_int
  unfold INT_MIN at h1
  unfold INT_MAX at h2
  omega

theorem LGTD_MIN_eq_min (a b : Int) : LGTD_MIN a b = min a b := by
  unfold LGTD_MIN
  split <;> omega

/-- C1 (counterexample): two runs of the callback at the spec's constants.
(1) In the state before start, with an empty gateway list, when `event_add`
fails the timer is not re-armed, `lgtd_lifx_broadcast_discovery` is not called
and the process ends with status 1, whereas the claim has the timer re-armed and
one broadcast sent in both cases. (2) With a gateway and the current interval
2^30, a value of the `int` the claim quantifies over (with these constants it is
not reached from start), the `int` product `lgtd_discovery_timeout * 2` leaves
the 32-bit range, where C leaves it undefined and the two's complement value is
-2^31: the callback stores -2^31, not `min (2 * t) PASSIVE = 60000`. -/
theorem discovery_callback_counterexample :
    (lgtd_lifx_discovery_timeout_event_callback spec_constants
        { event_add := -1, lgtd_lifx_broadcast_discovery := true } []
        (discovery_init spec_constants)).lgtd_discovery_timeout_ev = none ∧
    (lgtd_lifx_discovery_timeout_event_callback spec_constants
        { event_add := -1, lgtd_lifx_broadcast_discovery := true } []
        (discovery_init spec_constants)).broadcasts = 0 ∧
    (lgtd_lifx_discovery_timeout_event_callback spec_constants
        { event_add := -1, lgtd_lifx_broadcast_discovery := true } []
        (discovery_init spec_constants)).terminated = some (lgtd_termination.exit 1) ∧
    (lgtd_lifx_discovery_timeout_event_callback spec_constants env_ok [example_gateway]
        { lgtd_discovery_timeout := 1073741824, lgtd_discovery_timeout_ev := none,
          broadcasts := 0, terminated := none }).lgtd_discovery_timeout
      ≠ min (2 * 1073741824)
          spec_constants.LGTD_LIFX_DISCOVERY_PASSIVE_DISCOVERY_INTERVAL_MSECS ∧
    (lgtd_lifx_discovery_timeout_event_callback spec_constants env_ok [example_gateway]
        { lgtd_discovery_timeout := 1073741824, lgtd_discovery_timeout_ev := none,
          broadcasts := 0, terminated := none }).lgtd_discovery_timeout
      = -2147483648 := by
  decide

theorem callback_timeout_empty (k : lgtd_lifx_discovery_constants)
    (env : lgtd_discovery_env) (s : lgtd_lifx_discovery) :
    (lgtd_lifx_discovery_timeout_event_callback k env [] s).lgtd_discovery_timeout
      = k.LGTD_LIFX_DISCOVERY_ACTIVE_DISCOVERY_INTERVAL_MSECS := by
  unfold lgtd_lifx_discovery_timeout_event_callback
  simp only [List.isEmpty_nil, if_true]
  split
  · rfl
  · split <;> rfl

theorem callback_timeout_of_range (k : lgtd_lifx_discovery_constants)
    (env : lgtd_discovery_env) (gws : List lgtd_lifx_gateway) (s : lgtd_lifx_discovery)
    (h : gws ≠ []) (h1 : INT_MIN ≤ 2 * s.lgtd_discovery_timeout)
    (h2 : 2 * s.lgtd_discovery_timeout ≤ INT_MAX) :
    (lgtd_lifx_discovery_timeout_event_callback k env gws s).lgtd_discovery_timeout
      = min (2 * s.lgtd_discovery_timeout)
          k.LGTD_LIFX_DISCOVERY_PASSIVE_DISCOVERY_INTERVAL_MSECS := by
  have hne : gws.isEmpty = false := by
    cases gws with
    | nil => exact absurd rfl h
    | cons a l => rfl
  have hw : wrap_int (s.lgtd_discovery_timeout * 2) = 2 * s.lgtd_discovery_timeout := by
    rw [mul_comm]
    exact wrap_int_of_range _ h1 h2
  unfold lgtd_lifx_discovery_timeout_event_callback
  simp only [hne, hw, LGTD_MIN_eq_min]
  split
  · simp
  · split <;> simp

theorem callback_rearm (k : lgtd_lifx_discovery_constants)
    (env : lgtd_discovery_env) (gws : List lgtd_lifx_gateway) (s : lgtd_lifx_discovery)
    (h : env.event_add = 0) :
    (lgtd_lifx_discovery_timeout_event_callback k env gws s).lgtd_discovery_timeout_ev
      = some (lgtd_lifx_discovery_timeout_event_callback k env gws s).lgtd_discovery_timeout ∧
    (lgtd_lifx_discovery_timeout_event_callback k env gws s).broadcasts
      = s.broadcasts + 1 := by
  unfold lgtd_lifx_discovery_timeout_event_callback
  simp only [h]
  cases env.lgtd_lifx_broadcast_discovery <;> simp

theorem callback_event_add_fails (k : lgtd_lifx_discovery_constants)
    (env : lgtd_discovery_env) (gws : List lgtd_lifx_gateway) (s : lgtd_lifx_discovery)
    (h : env.event_add ≠ 0) :
    (lgtd_lifx_discovery_timeout_event_callback k env gws s).lgtd_discovery_timeout_ev
      = s.lgtd_discovery_timeout_ev ∧
    (lgtd_lifx_discovery_timeout_event_callback k env gws s).broadcasts = s.broadcasts ∧
    (lgtd_lifx_discovery_timeout_event_callback k env gws s).terminated
      = some (lgtd_termination.exit 1) := by
  unfold lgtd_lifx_discovery_timeout_event_callback
  simp [h]

theorem callback_terminated (k : lgtd_lifx_discovery_constants)
    (env : lgtd_discovery_env) (gws : List lgtd_lifx_gateway) (s : lgtd_lifx_discovery)
    (h : env.event_add = 0) :
    (lgtd_lifx_discovery_timeout_event_callback k env gws s).terminated
      = (if env.lgtd_lifx_broadcast_discovery = true then s.terminated
         else some (lgtd_termination.exit 1)) := by
  unfold lgtd_lifx_discovery_timeout_event_callback
  simp only [h]
  cases env.lgtd_lifx_broadcast_discovery <;> simp

/-- C1 (amended): one run of the discovery timer callback stores
`ACTIVE_INTERVAL_MS` when the gateway list is empty, whatever the interval was;
when the list is not empty and `2 * t` is representable as a C `int`, it stores
`min (2 * t) PASSIVE_INTERVAL_MS`. In both cases, when `event_add` succeeds the
timer is re-armed with the stored interval and `lgtd_lifx_broadcast_discovery`
is called exactly once, the process going on when that call succeeds and ending
with status 1 when it fails; when `event_add` fails the timer is left as it was,
`lgtd_lifx_broadcast_discovery` is not called and the process ends with
status 1. -/
theorem discovery_callback_contract (k : lgtd_lifx_discovery_constants)
    (env : lgtd_discovery_env) (gws : List lgtd_lifx_gateway) (s : lgtd_lifx_discovery) :
    (gws = [] →
      (lgtd_lifx_discovery_timeout_event_callback k env gws s).lgtd_discovery_timeout
        = k.LGTD_LIFX_DISCOVERY_ACTIVE_DISCOVERY_INTERVAL_MSECS) ∧
    (gws ≠ [] → INT_MIN ≤ 2 * s.lgtd_discovery_timeout →
      2 * s.lgtd_discovery_timeout ≤ INT_MAX →
      (lgtd_lifx_discovery_timeout_event_callback k env gws s).lgtd_discovery_timeout
        = min (2 * s.lgtd_discovery_timeout)
            k.LGTD_LIFX_DISCOVERY_PASSIVE_DISCOVERY_INTERVAL_MSECS) ∧
    (env.event_add = 0 →
      (lgtd_lifx_discovery_timeout_event_callback k env gws s).lgtd_discovery_timeout_ev
        = some (lgtd_lifx_discovery_timeout_event_callback k env gws s).lgtd_discovery_timeout ∧
      (lgtd_lifx_discovery_timeout_event_callback k env gws s).broadcasts
        = s.broadcasts + 1 ∧
      (env.lgtd_lifx_broadcast_discovery = true →
        (lgtd_lifx_discovery_timeout_event_callback k env gws s).terminated
          = s.terminated) ∧
      (env.lgtd_lifx_broadcast_discovery = false →
        (lgtd_lifx_discovery_timeout_event_callback k env gws s).terminated
          = some (lgtd_termination.exit 1))) ∧
    (env.event_add ≠ 0 →
      (lgtd_lifx_discovery_timeout_event_callback k env gws s).lgtd_discovery_timeout_ev
        = s.lgtd_discovery_timeout_ev ∧
      (lgtd_lifx_discovery_timeout_event_callback k env gws s).broadcasts = s.broadcasts ∧
      (lgtd_lifx_discovery_timeout_event_callback k env gws s).terminated
        = some (lgtd_termination.exit 1)) := by
  refine ⟨?_, ?_, ?_, ?_⟩
  · intro h
    subst h
    exact callback_timeout_empty k env s
  · exact callback_timeout_of_range k env gws s
  · intro h
    have hr := callback_rearm k env gws s h
    have ht := callback_terminated k env gws s h
    refine ⟨hr.1, hr.2, ?_, ?_⟩
    · intro hb
      rw [ht, if_pos hb]
    · intro hb
      rw [ht, hb]
      rfl
  · exact callback_event_add_fails k env gws s

/-- C1 (witness): the contract at the spec's constants: from the interval
2 000 ms with one gateway and both external calls succeeding, the interval and
the armed timeout become 4 000 ms, one broadcast is made and the process goes
on; with `event_add` failing, the process ends with status 1 and no broadcast is
made. -/
theorem discovery_callback_contract_witness :
    (lgtd_lifx_discovery_timeout_event_callback spec_constants env_ok [example_gateway]
        (discovery_init spec_constants)).lgtd_discovery_timeout = 4000 ∧
    (lgtd_lifx_discovery_timeout_event_callback spec_constants env_ok [example_gateway]
        (discovery_init spec_constants)).lgtd_discovery_timeout_ev = some 4000 ∧
    (lgtd_lifx_discovery_timeout_event_callback spec_constants env_ok [example_gateway]
        (discovery_init spec_constants)).broadcasts = 1 ∧
    (lgtd_lifx_discovery_timeout_event_callback spec_constants env_ok [example_gateway]
        (discovery_init spec_constants)).terminated = none ∧
    (lgtd_lifx_discovery_timeout_event_callback spec_constants
        { event_add := -1, lgtd_lifx_broadcast_discovery := true } [example_gateway]
        (discovery_init spec_constants)).broadcasts = 0 ∧
    (lgtd_lifx_discovery_timeout_event_callback spec_constants
        { event_add := -1, lgtd_lifx_broadcast_discovery := true } [example_gateway]
        (discovery_init spec_constants)).terminated = some (lgtd_termination.exit 1) := by
  have h := discovery_callback_contract spec_constants env_ok [example_gateway]
    (discovery_init spec_constants)
  have h2 := h.2.1 (by simp) (by decide) (by decide)
  have h3 := h.2.2.1 (by decide)
  have h4 := (discovery_callback_contract spec_constants
    { event_add := -1, lgtd_lifx_broadcast_discovery := true } [example_gateway]
    (discovery_init spec_constants)).2.2.2 (by decide)
  refine ⟨?_, ?_, ?_, ?_, h4.2.1, h4.2.2⟩
  · rw [h2]; decide
  · rw [h3.1, h2]; decide
  · rw [h3.2.1]; rfl
  · rw [h3.2.2.1 rfl]; rfl

theorem callback_timeout_nonempty (k : lgtd_lifx_discovery_constants)
    (env : lgtd_discovery_env) (gws : List lgtd_lifx_gateway) (s : lgtd_lifx_discovery)
    (hk : k.intervals_ok) (hg : gws ≠ [])
    (h0 : 0 ≤ s.lgtd_discovery_timeout)
    (h1 : s.lgtd_discovery_timeout ≤ k.LGTD_LIFX_DISCOVERY_PASSIVE_DISCOVERY_INTERVAL_MSECS) :
    (lgtd_lifx_discovery_timeout_event_callback k env gws s).lgtd_discovery_timeout
      = min (2 * s.lgtd_discovery_timeout)
          k.LGTD_LIFX_DISCOVERY_PASSIVE_DISCOVERY_INTERVAL_MSECS := by
  obtain ⟨_, _, hp⟩ := hk
  refine callback_timeout_of_range k env gws s hg ?_ ?_
  · unfold INT_MIN; omega
  · omega

theorem callback_ok (k : lgtd_lifx_discovery_constants)
    (env : lgtd_discovery_env) (gws : List lgtd_lifx_gateway) (s : lgtd_lifx_discovery)
    (he : env.event_add = 0) (hb : env.lgtd_lifx_broadcast_discovery = true) :
    (lgtd_lifx_discovery_timeout_event_callback k env gws s).lgtd_discovery_timeout_ev
      = some (lgtd_lifx_discovery_timeout_event_callback k env gws s).lgtd_discovery_timeout ∧
    (lgtd_lifx_discovery_timeout_event_callback k env gws s).terminated = s.terminated := by
  unfold lgtd_lifx_discovery_timeout_event_callback
  simp [he, hb]

theorem discovery_intervals_head (k : lgtd_lifx_discovery_constants)
    (s : lgtd_lifx_discovery) (fires : List lgtd_discovery_fire) :
    (discovery_intervals k s fires).head? = some s.lgtd_discovery_timeout := by
  cases fires <;> rfl

theorem discovery_intervals_frozen (k : lgtd_lifx_discovery_constants)
    (fires : List lgtd_discovery_fire) :
    ∀ s : lgtd_lifx_discovery, s.terminated.isSome = true →
      List.Chain' (fun a b : Int => a ≤ b) (discovery_intervals k s fires) := by
  induction fires with
  | nil => intro s _; simp [discovery_intervals]
  | cons f fs ih =>
    intro s hs
    have hstep : discovery_fire k s f = s := by
      unfold discovery_fire
      simp [hs]
    simp only [discovery_intervals, hstep]
    refine List.Chain'.cons' (ih s hs) ?_
    intro y hy
    rw [discovery_intervals_head] at hy
    simp only [Option.mem_def, Option.some.injEq] at hy
    omega

theorem discovery_intervals_chain (k : lgtd_lifx_discovery_constants)
    (hk : k.intervals_ok) (fires : List lgtd_discovery_fire)
    (hf : ∀ f ∈ fires, f.lgtd_lifx_gateways ≠ []) :
    ∀ s : lgtd_lifx_discovery,
      0 ≤ s.lgtd_discovery_timeout →
      s.lgtd_discovery_timeout ≤ k.LGTD_LIFX_DISCOVERY_PASSIVE_DISCOVERY_INTERVAL_MSECS →
      List.Chain' (fun a b : Int => a ≤ b) (discovery_intervals k s fires) := by
  induction fires with
  | nil => intro s _ _; simp [discovery_intervals]
  | cons f fs ih =>
    intro s h0 h1
    have hfs : ∀ g ∈ fs, g.lgtd_lifx_gateways ≠ [] :=
      fun g hg => hf g (List.mem_cons_of_mem _ hg)
    have hfg : f.lgtd_lifx_gateways ≠ [] := hf f (List.mem_cons_self _ _)
    simp only [discovery_intervals]
    by_cases ht : s.terminated.isSome = true
    · have hstep : discovery_fire k s f = s := by
        unfold discovery_fire
        simp [ht]
      rw [hstep]
      refine List.Chain'.cons' (ih hfs s h0 h1) ?_
      intro y hy
      rw [discovery_intervals_head] at hy
      simp only [Option.mem_def, Option.some.injEq] at hy
      omega
    · have hstep : discovery_fire k s f
          = lgtd_lifx_discovery_timeout_event_callback k f.env f.lgtd_lifx_gateways
              { s with lgtd_discovery_timeout_ev := none } := by
        unfold discovery_fire
        simp [ht]
      have ht2 := callback_timeout_nonempty k f.env f.lgtd_lifx_gateways
        { s with lgtd_discovery_timeout_ev := none } hk hfg h0 h1
      simp only [] at ht2
      rw [hstep]
      refine List.Chain'.cons' (ih hfs _ ?_ ?_) ?_
      · rw [ht2]; omega
      · rw [ht2]; omega
      · intro y hy
        rw [discovery_intervals_head] at hy
        simp only [Option.mem_def, Option.some.injEq] at hy
        rw [← hy, ht2]
        omega

/-- C2: starting from `lgtd_lifx_discovery_start` (run on any state, with any
gateway list), along every sequence of consecutive discovery timer expiries that
each find the gateway list non-empty, the discovery interval never decreases:
each value of `lgtd_discovery_timeout` is at most the next one. The constants
satisfy `0 ≤ ACTIVE ≤ PASSIVE` and `2 * PASSIVE ≤ INT_MAX`. -/
theorem discovery_backoff_monotone (k : lgtd_lifx_discovery_constants)
    (hk : k.intervals_ok) (env0 : lgtd_discovery_env) (gws0 : List lgtd_lifx_gateway)
    (s : lgtd_lifx_discovery) (fires : List lgtd_discovery_fire)
    (hf : ∀ f ∈ fires, f.lgtd_lifx_gateways ≠ []) :
    List.Chain' (fun a b : Int => a ≤ b)
      (discovery_intervals k (lgtd_lifx_discovery_start k env0 gws0 s) fires) := by
  by_cases hp : s.lgtd_discovery_timeout_ev.isSome = true
  · apply discovery_intervals_frozen
    unfold lgtd_lifx_discovery_start
    simp [hp]
  · have hstart : lgtd_lifx_discovery_start k env0 gws0 s
        = lgtd_lifx_discovery_timeout_event_callback k env0 gws0
            { s with lgtd_discovery_timeout :=
                       k.LGTD_LIFX_DISCOVERY_ACTIVE_DISCOVERY_INTERVAL_MSECS } := by
      unfold lgtd_lifx_discovery_start
      simp [hp]
    rw [hstart]
    obtain ⟨ha, hap, hpm⟩ := hk
    by_cases hg : gws0 = []
    · subst hg
      apply discovery_intervals_chain k ⟨ha, hap, hpm⟩ fires hf
      · rw [callback_timeout_empty]; exact ha
      · rw [callback_timeout_empty]; exact hap
    · have ht := callback_timeout_nonempty k env0 gws0
        { s with lgtd_discovery_timeout :=
                   k.LGTD_LIFX_DISCOVERY_ACTIVE_DISCOVERY_INTERVAL_MSECS }
        ⟨ha, hap, hpm⟩ hg ha hap
      apply discovery_intervals_chain k ⟨ha, hap, hpm⟩ fires hf
      · rw [ht]; simp only []; omega
      · rw [ht]; simp only []; omega

/-- C2 (witness): three consecutive expiries with one gateway present after a
cold start, at the spec's constants: the intervals are 2000, 4000, 8000, 16000. -/
theorem discovery_backoff_monotone_witness :
    spec_constants.intervals_ok ∧
    discovery_intervals spec_constants
        (lgtd_lifx_discovery_start spec_constants env_ok [] (discovery_init spec_constants))
        [⟨env_ok, [example_gateway]⟩, ⟨env_ok, [example_gateway]⟩, ⟨env_ok, [example_gateway]⟩]
      = [2000, 4000, 8000, 16000] ∧
    List.Chain' (fun a b : Int => a ≤ b)
      (discovery_intervals spec_constants
        (lgtd_lifx_discovery_start spec_constants env_ok [] (discovery_init spec_constants))
        [⟨env_ok, [example_gateway]⟩, ⟨env_ok, [example_gateway]⟩, ⟨env_ok, [example_gateway]⟩]) :=
  ⟨by decide, by decide,
   discovery_backoff_monotone spec_constants (by decide) env_ok []
     (discovery_init spec_constants) _ (by simp)⟩

theorem min_double_pow (n : Nat) (t p : Int) (h0 : 0 ≤ t) (hp : t ≤ p) :
    min ((2 : Int) ^ n * min (2 * t) p) p = min ((2 : Int) ^ (n + 1) * t) p := by
  have h1 : (1 : Int) ≤ 2 ^ n := one_le_pow₀ (by norm_num)
  have he : (2 : Int) ^ (n + 1) * t = 2 ^ n * (2 * t) := by ring
  rw [he]
  by_cases hc : 2 * t ≤ p
  · rw [min_eq_left hc]
  · have hc2 : p < 2 * t := not_le.mp hc
    rw [min_eq_right (le_of_lt hc2)]
    have hp0 : 0 ≤ p := le_trans h0 hp
    have a1 : p ≤ 2 ^ n * p := le_mul_of_one_le_left hp0 h1
    have a2 : (2 : Int) ^ n * p ≤ 2 ^ n * (2 * t) :=
      mul_le_mul_of_nonneg_left (le_of_lt hc2) (by positivity)
    rw [min_eq_right a1, min_eq_right (le_trans a1 a2)]

theorem discovery_run_backoff (k : lgtd_lifx_discovery_constants)
    (hk : k.intervals_ok) (fires : List lgtd_discovery_fire) :
    ∀ s : lgtd_lifx_discovery,
      (∀ f ∈ fires, f.lgtd_lifx_gateways ≠ [] ∧ f.env.event_add = 0 ∧
        f.env.lgtd_lifx_broadcast_discovery = true) →
      s.terminated = none →
      0 ≤ s.lgtd_discovery_timeout →
      s.lgtd_discovery_timeout ≤ k.LGTD_LIFX_DISCOVERY_PASSIVE_DISCOVERY_INTERVAL_MSECS →
      s.lgtd_discovery_timeout_ev = some s.lgtd_discovery_timeout →
      (discovery_run k s fires).lgtd_discovery_timeout
        = min ((2 : Int) ^ fires.length * s.lgtd_discovery_timeout)
            k.LGTD_LIFX_DISCOVERY_PASSIVE_DISCOVERY_INTERVAL_MSECS ∧
      (discovery_run k s fires).lgtd_discovery_timeout_ev
        = some (discovery_run k s fires).lgtd_discovery_timeout ∧
      (discovery_run k s fires).terminated = none := by
  induction fires with
  | nil =>
    intro s _ ht h0 h1 hev
    refine ⟨?_, hev, ht⟩
    simp only [discovery_run, List.foldl_nil, List.length_nil, pow_zero, one_mul]
    exact (min_eq_left h1).symm
  | cons f fs ih =>
    intro s hf ht h0 h1 hev
    obtain ⟨hg, he, hb⟩ := hf f (List.mem_cons_self _ _)
    have hfs : ∀ g ∈ fs, g.lgtd_lifx_gateways ≠ [] ∧ g.env.event_add = 0 ∧
        g.env.lgtd_lifx_broadcast_discovery = true :=
      fun g hg => hf g (List.mem_cons_of_mem _ hg)
    have hstep : discovery_fire k s f
        = lgtd_lifx_discovery_timeout_event_callback k f.env f.lgtd_lifx_gateways
            { s with lgtd_discovery_timeout_ev := none } := by
      unfold discovery_fire
      simp [ht]
    have ht2 := callback_timeout_nonempty k f.env f.lgtd_lifx_gateways
      { s with lgtd_discovery_timeout_ev := none } hk hg h0 h1
    have hok := callback_ok k f.env f.lgtd_lifx_gateways
      { s with lgtd_discovery_timeout_ev := none } he hb
    simp only [] at ht2 hok
    have hrun : discovery_run k s (f :: fs)
        = discovery_run k
            (lgtd_lifx_discovery_timeout_event_callback k f.env f.lgtd_lifx_gateways
              { s with lgtd_discovery_timeout_ev := none }) fs := by
      simp only [discovery_run, List.foldl_cons, hstep]
    rw [hrun]
    have h := ih _ hfs (by rw [hok.2]; exact ht) (by rw [ht2]; omega) (by rw [ht2]; omega) hok.1
    refine ⟨?_, h.2.1, h.2.2⟩
    rw [h.1, ht2, List.length_cons]
    exact min_double_pow fs.length _ _ h0 h1

/-- C3: in a cold start (`lgtd_lifx_discovery_start` runs on a live process with
the timer not pending and the gateway list empty, as in `main`, and the external
calls succeed) the timer is armed with `ACTIVE_INTERVAL_MS`; after `n`
subsequent consecutive expiries that each find the gateway list non-empty, the
interval and the armed timeout are `min (2^n * ACTIVE) PASSIVE`; in particular
the first such expiry uses `2 * ACTIVE` when `2 * ACTIVE ≤ PASSIVE`. The
constants satisfy `0 ≤ ACTIVE ≤ PASSIVE` and `2 * PASSIVE ≤ INT_MAX`. -/
theorem discovery_cold_start_backoff (k : lgtd_lifx_discovery_constants)
    (hk : k.intervals_ok) (env0 : lgtd_discovery_env) (s : lgtd_lifx_discovery)
    (fires : List lgtd_discovery_fire)
    (hev : s.lgtd_discovery_timeout_ev = none) (halive : s.terminated = none)
    (he0 : env0.event_add = 0) (hb0 : env0.lgtd_lifx_broadcast_discovery = true)
    (hf : ∀ f ∈ fires, f.lgtd_lifx_gateways ≠ [] ∧ f.env.event_add = 0 ∧
      f.env.lgtd_lifx_broadcast_discovery = true) :
    (lgtd_lifx_discovery_start k env0 [] s).lgtd_discovery_timeout_ev
      = some k.LGTD_LIFX_DISCOVERY_ACTIVE_DISCOVERY_INTERVAL_MSECS ∧
    (discovery_run k (lgtd_lifx_discovery_start k env0 [] s) fires).lgtd_discovery_timeout
      = min ((2 : Int) ^ fires.length * k.LGTD_LIFX_DISCOVERY_ACTIVE_DISCOVERY_INTERVAL_MSECS)
          k.LGTD_LIFX_DISCOVERY_PASSIVE_DISCOVERY_INTERVAL_MSECS ∧
    (discovery_run k (lgtd_lifx_discovery_start k env0 [] s) fires).lgtd_discovery_timeout_ev
      = some (min ((2 : Int) ^ fires.length *
                k.LGTD_LIFX_DISCOVERY_ACTIVE_DISCOVERY_INTERVAL_MSECS)
          k.LGTD_LIFX_DISCOVERY_PASSIVE_DISCOVERY_INTERVAL_MSECS) ∧
    (fires.length = 1 →
      2 * k.LGTD_LIFX_DISCOVERY_ACTIVE_DISCOVERY_INTERVAL_MSECS
        ≤ k.LGTD_LIFX_DISCOVERY_PASSIVE_DISCOVERY_INTERVAL_MSECS →
      (discovery_run k (lgtd_lifx_discovery_start k env0 [] s) fires).lgtd_discovery_timeout_ev
        = some (2 * k.LGTD_LIFX_DISCOVERY_ACTIVE_DISCOVERY_INTERVAL_MSECS)) := by
  have hstart : lgtd_lifx_discovery_start k env0 [] s
      = lgtd_lifx_discovery_timeout_event_callback k env0 []
          { s with lgtd_discovery_timeout :=
                     k.LGTD_LIFX_DISCOVERY_ACTIVE_DISCOVERY_INTERVAL_MSECS } := by
    unfold lgtd_lifx_discovery_start
    simp [hev]
  have ht0 := callback_timeout_empty k env0
    { s with lgtd_discovery_timeout := k.LGTD_LIFX_DISCOVERY_ACTIVE_DISCOVERY_INTERVAL_MSECS }
  have hok0 := callback_ok k env0 []
    { s with lgtd_discovery_timeout := k.LGTD_LIFX_DISCOVERY_ACTIVE_DISCOVERY_INTERVAL_MSECS }
    he0 hb0
  rw [← hstart] at ht0 hok0
  have hev0 : (lgtd_lifx_discovery_start k env0 [] s).lgtd_discovery_timeout_ev
      = some k.LGTD_LIFX_DISCOVERY_ACTIVE_DISCOVERY_INTERVAL_MSECS := by
    rw [hok0.1, ht0]
  have hrun := discovery_run_backoff k hk fires (lgtd_lifx_discovery_start k env0 [] s) hf
    (by rw [hok0.2]; exact halive) (by rw [ht0]; exact hk.1) (by rw [ht0]; exact hk.2.1) hok0.1
  rw [ht0] at hrun
  refine ⟨hev0, hrun.1, ?_, ?_⟩
  · rw [hrun.2.1, hrun.1]
  · intro hlen h2
    rw [hrun.2.1, hrun.1, hlen, pow_one, min_eq_left h2]

/-- C3 (witness): the cold-discovery scenario at the spec's constants: start
arms the timer with 2 000 ms, a gateway is discovered, and the next expiry
re-arms it with 4 000 ms. -/
theorem discovery_cold_start_backoff_witness :
    (lgtd_lifx_discovery_start spec_constants env_ok []
        (discovery_init spec_constants)).lgtd_discovery_timeout_ev = some 2000 ∧
    (discovery_run spec_constants
        (lgtd_lifx_discovery_start spec_constants env_ok [] (discovery_init spec_constants))
        [⟨env_ok, [example_gateway]⟩]).lgtd_discovery_timeout_ev = some (2 * 2000) :=
  have h := discovery_cold_start_backoff spec_constants (by decide) env_ok
    (discovery_init spec_constants) [⟨env_ok, [example_gateway]⟩] rfl rfl rfl rfl
    (by simp [env_ok, example_gateway])
  ⟨h.1, h.2.2.2 rfl (by decide)⟩

/-! ### Watchdog -/

theorem light_state_lag_of_fit (now : Nat) (b : lgtd_lifx_bulb)
    (h1 : b.last_light_state_at ≤ now) (h2 : now - b.last_light_state_at < 2147483648) :
    light_state_lag now b = (now : Int) - (b.last_light_state_at : Int) := by
  unfold light_state_lag wrap_int
  omega

theorem watchdog_bulbs_spec (k : lgtd_lifx_discovery_constants) (now : Nat)
    (todo : List lgtd_lifx_bulb) :
    ∀ (seen : List lgtd_lifx_bulb) (w : lgtd_watchdog),
      w.lgtd_lifx_bulbs_table = seen ++ todo →
      (∀ b ∈ seen, ¬ light_state_lag now b ≥ k.LGTD_LIFX_DISCOVERY_DEVICE_TIMEOUT_MSECS) →
      (watchdog_bulbs k now todo w).lgtd_lifx_bulbs_table
        = seen ++ todo.filter (fun b =>
            !decide (light_state_lag now b ≥ k.LGTD_LIFX_DISCOVERY_DEVICE_TIMEOUT_MSECS)) ∧
      (watchdog_bulbs k now todo w).closed_bulbs
        = w.closed_bulbs ++ todo.filter (fun b =>
            decide (light_state_lag now b ≥ k.LGTD_LIFX_DISCOVERY_DEVICE_TIMEOUT_MSECS)) ∧
      (watchdog_bulbs k now todo w).start_discovery
        = (w.start_discovery || todo.any (fun b =>
            decide (light_state_lag now b ≥ k.LGTD_LIFX_DISCOVERY_DEVICE_TIMEOUT_MSECS))) ∧
      (watchdog_bulbs k now todo w).lgtd_lifx_gateways = w.lgtd_lifx_gateways ∧
      (watchdog_bulbs k now todo w).closed_gateways = w.closed_gateways ∧
      (watchdog_bulbs k now todo w).refreshed_gateways = w.refreshed_gateways ∧
      (watchdog_bulbs k now todo w).discovery = w.discovery := by
  induction todo with
  | nil =>
    intro seen w hw _
    simp [watchdog_bulbs, hw]
  | cons b rest ih =>
    intro seen w hw hseen
    by_cases hb : light_state_lag now b ≥ k.LGTD_LIFX_DISCOVERY_DEVICE_TIMEOUT_MSECS
    · have hnot : b ∉ seen := fun hmem => hseen b hmem hb
      have htable : (w.lgtd_lifx_bulbs_table).erase b = seen ++ rest := by
        rw [hw, List.erase_append_right _ hnot, List.erase_cons_head]
      have h := ih seen
        { lgtd_lifx_gateway_remove_and_close_bulb b w with start_discovery := true }
        (by simpa [lgtd_lifx_gateway_remove_and_close_bulb] using htable) hseen
      simp only [watchdog_bulbs, hb, if_true]
      refine ⟨?_, ?_, ?_, h.2.2.2.1, h.2.2.2.2.1, h.2.2.2.2.2.1, h.2.2.2.2.2.2⟩
      · rw [h.1]; simp [hb]
      · rw [h.2.1]; simp [hb, lgtd_lifx_gateway_remove_and_close_bulb]
      · rw [h.2.2.1]; simp [hb]
    · have h := ih (seen ++ [b]) w (by simp [hw]) (by
        intro c hc
        rcases List.mem_append.mp hc with hc | hc
        · exact hseen c hc
        · rw [List.mem_singleton.mp hc]; exact hb)
      simp only [watchdog_bulbs, hb, if_false]
      refine ⟨?_, ?_, ?_, h.2.2.2.1, h.2.2.2.2.1, h.2.2.2.2.2.1, h.2.2.2.2.2.2⟩
      · rw [h.1]; simp [hb]
      · rw [h.2.1]; simp [hb]
      · rw [h.2.2.1]; simp [hb]

theorem watchdog_gateways_spec (k : lgtd_lifx_discovery_constants)
    (lag : lgtd_lifx_gateway → Int) (todo : List lgtd_lifx_gateway) :
    ∀ (w : lgtd_watchdog),
      (watchdog_gateways k lag todo w).closed_gateways
        = w.closed_gateways ++ todo.filter (fun g =>
            decide (lag g ≥ k.LGTD_LIFX_DISCOVERY_DEVICE_TIMEOUT_MSECS)) ∧
      (watchdog_gateways k lag todo w).refreshed_gateways
        = w.refreshed_gateways ++ todo.filter (fun g =>
            !decide (lag g ≥ k.LGTD_LIFX_DISCOVERY_DEVICE_TIMEOUT_MSECS) &&
            decide (lag g ≥ k.LGTD_LIFX_DISCOVERY_DEVICE_FORCE_REFRESH_MSECS)) ∧
      (watchdog_gateways k lag todo w).start_discovery
        = (w.start_discovery || todo.any (fun g =>
            decide (lag g ≥ k.LGTD_LIFX_DISCOVERY_DEVICE_TIMEOUT_MSECS))) ∧
      (watchdog_gateways k lag todo w).lgtd_lifx_bulbs_table
        = w.lgtd_lifx_bulbs_table.filter (fun b =>
            !(todo.filter (fun g =>
                decide (lag g ≥ k.LGTD_LIFX_DISCOVERY_DEVICE_TIMEOUT_MSECS))).any
              (fun g => decide (g.peeraddr = b.gw))) ∧
      (watchdog_gateways k lag todo w).closed_bulbs = w.closed_bulbs ∧
      (watchdog_gateways k lag todo w).discovery = w.discovery := by
  induction todo with
  | nil =>
    intro w
    simp [watchdog_gateways]
  | cons g rest ih =>
    intro w
    by_cases hg : lag g ≥ k.LGTD_LIFX_DISCOVERY_DEVICE_TIMEOUT_MSECS
    · have h := ih { lgtd_lifx_gateway_close g w with start_discovery := true }
      simp only [watchdog_gateways, hg, if_true]
      refine ⟨?_, ?_, ?_, ?_, h.2.2.2.2.1, h.2.2.2.2.2⟩
      · rw [h.1]; simp [hg, lgtd_lifx_gateway_close]
      · rw [h.2.1]; simp [hg, lgtd_lifx_gateway_close]
      · rw [h.2.2.1]; simp [hg]
      · rw [h.2.2.2.1]
        simp only [lgtd_lifx_gateway_close, List.filter_filter, hg, decide_True,
          List.filter_cons_of_pos, List.any_cons, Bool.not_or]
        apply List.filter_congr
        intro b _
        by_cases hbg : b.gw = g.peeraddr
        · simp [hbg]
        · have hbg2 : ¬ g.peeraddr = b.gw := fun h => hbg h.symm
          simp [hbg, hbg2]
    · by_cases hr : lag g ≥ k.LGTD_LIFX_DISCOVERY_DEVICE_FORCE_REFRESH_MSECS
      · have h := ih (lgtd_lifx_gateway_force_refresh g w)
        simp only [watchdog_gateways, hg, hr, if_true, if_false]
        refine ⟨?_, ?_, ?_, ?_, h.2.2.2.2.1, h.2.2.2.2.2⟩
        · rw [h.1]; simp [hg, lgtd_lifx_gateway_force_refresh]
        · rw [h.2.1]; simp [hg, hr, lgtd_lifx_gateway_force_refresh]
        · rw [h.2.2.1]; simp [hg, lgtd_lifx_gateway_force_refresh]
        · rw [h.2.2.2.1]; simp [hg, lgtd_lifx_gateway_force_refresh]
      · have h := ih w
        simp only [watchdog_gateways, hg, hr, if_false]
        refine ⟨?_, ?_, ?_, ?_, h.2.2.2.2.1, h.2.2.2.2.2⟩
        · rw [h.1]; simp [hg]
        · rw [h.2.1]; simp [hg, hr]
        · rw [h.2.2.1]; simp [hg]
        · rw [h.2.2.2.1]; simp [hg]

theorem watchdog_callback_spec (k : lgtd_lifx_discovery_constants) (now : Nat)
    (lag : lgtd_lifx_gateway → Int) (table : List lgtd_lifx_bulb)
    (gws : List lgtd_lifx_gateway) (d : lgtd_lifx_discovery) :
    (lgtd_lifx_discovery_watchdog_interval_callback k now lag table gws d).closed_bulbs
      = table.filter (fun b =>
          decide (light_state_lag now b ≥ k.LGTD_LIFX_DISCOVERY_DEVICE_TIMEOUT_MSECS)) ∧
    (lgtd_lifx_discovery_watchdog_interval_callback k now lag table gws d).closed_gateways
      = gws.filter (fun g => decide (lag g ≥ k.LGTD_LIFX_DISCOVERY_DEVICE_TIMEOUT_MSECS)) ∧
    (lgtd_lifx_discovery_watchdog_interval_callback k now lag table gws d).refreshed_gateways
      = gws.filter (fun g =>
          !decide (lag g ≥ k.LGTD_LIFX_DISCOVERY_DEVICE_TIMEOUT_MSECS) &&
          decide (lag g ≥ k.LGTD_LIFX_DISCOVERY_DEVICE_FORCE_REFRESH_MSECS)) ∧
    (lgtd_lifx_discovery_watchdog_interval_callback k now lag table gws d).start_discovery
      = (table.any (fun b =>
            decide (light_state_lag now b ≥ k.LGTD_LIFX_DISCOVERY_DEVICE_TIMEOUT_MSECS)) ||
         gws.any (fun g => decide (lag g ≥ k.LGTD_LIFX_DISCOVERY_DEVICE_TIMEOUT_MSECS))) ∧
    (lgtd_lifx_discovery_watchdog_interval_callback k now lag table gws d).lgtd_lifx_bulbs_table
      = (table.filter (fun b =>
          !decide (light_state_lag now b ≥ k.LGTD_LIFX_DISCOVERY_DEVICE_TIMEOUT_MSECS))).filter
          (fun b => !(gws.filter (fun g =>
              decide (lag g ≥ k.LGTD_LIFX_DISCOVERY_DEVICE_TIMEOUT_MSECS))).any
            (fun g => decide (g.peeraddr = b.gw))) ∧
    (lgtd_lifx_discovery_watchdog_interval_callback k now lag table gws d).discovery
      = (if (table.any (fun b =>
              decide (light_state_lag now b ≥ k.LGTD_LIFX_DISCOVERY_DEVICE_TIMEOUT_MSECS)) ||
            gws.any (fun g => decide (lag g ≥ k.LGTD_LIFX_DISCOVERY_DEVICE_TIMEOUT_MSECS)))
          = true
         then { d with broadcasts := d.broadcasts + 1 } else d) := by
  have hb := watchdog_bulbs_spec k now table [] (watchdog_enter table gws d) rfl
    (by intro b hb; cases hb)
  have hg := watchdog_gateways_spec k lag gws
    (watchdog_bulbs k now table (watchdog_enter table gws d))
  obtain ⟨hb1, hb2, hb3, hb4, hb5, hb6, hb7⟩ := hb
  obtain ⟨hg1, hg2, hg3, hg4, hg5, hg6⟩ := hg
  have e4 : (watchdog_enter table gws d).lgtd_lifx_gateways = gws := rfl
  have e5 : (watchdog_enter table gws d).closed_gateways = [] := rfl
  have e6 : (watchdog_enter table gws d).refreshed_gateways = [] := rfl
  have e3 : (watchdog_enter table gws d).start_discovery = false := rfl
  have e2 : (watchdog_enter table gws d).closed_bulbs = [] := rfl
  have e7 : (watchdog_enter table gws d).discovery = d := rfl
  rw [hb5, e5, List.nil_append] at hg1
  rw [hb6, e6, List.nil_append] at hg2
  rw [hb3, e3, Bool.false_or] at hg3
  rw [hb1, List.nil_append] at hg4
  rw [hb2, e2, List.nil_append] at hg5
  rw [hb7, e7] at hg6
  unfold lgtd_lifx_discovery_watchdog_interval_callback
  simp only [hb4, e4]
  split
  · rename_i hs
    rw [hg3] at hs
    refine ⟨hg5, hg1, hg2, hg3, hg4, ?_⟩
    simp only [hg6, hs, if_true]
  · rename_i hs
    rw [hg3] at hs
    refine ⟨hg5, hg1, hg2, hg3, hg4, ?_⟩
    simp only [hg6, hs]
    rfl

theorem filter_isEmpty_eq_not_any {α : Type} (p : α → Bool) (l : List α) :
    (l.filter p).isEmpty = !l.any p := by
  induction l with
  | nil => rfl
  | cons a l ih =>
    by_cases h : p a = true
    · simp [List.filter_cons, h]
    · simp [List.filter_cons, h, ih]

/-- C4 (counterexample): at the spec's constants, (1) a bulb last seen at time 0
when the clock reads 2^31 ms has a lag of 2^31 ≥ 30 000 ms, yet the `int` lag is
-2^31 and the watchdog neither removes it nor flags `start_discovery`; (2) a bulb
updated at the current time (lag 0) leaves the registry in the same run when
its gateway has not been updated for 30 000 ms. -/
theorem watchdog_bulbs_counterexample :
    (spec_constants.LGTD_LIFX_DISCOVERY_DEVICE_TIMEOUT_MSECS ≤ ((2147483648 : Nat) : Int) - 0 ∧
     (lgtd_lifx_discovery_watchdog_interval_callback spec_constants 2147483648 (fun _ => 0)
        [example_bulb 1 0] [example_gateway]
        (discovery_init spec_constants)).lgtd_lifx_bulbs_table = [example_bulb 1 0] ∧
     (lgtd_lifx_discovery_watchdog_interval_callback spec_constants 2147483648 (fun _ => 0)
        [example_bulb 1 0] [example_gateway]
        (discovery_init spec_constants)).closed_bulbs = [] ∧
     (lgtd_lifx_discovery_watchdog_interval_callback spec_constants 2147483648 (fun _ => 0)
        [example_bulb 1 0] [example_gateway]
        (discovery_init spec_constants)).start_discovery = false) ∧
    (((40000 : Nat) : Int) - ((40000 : Nat) : Int)
        < spec_constants.LGTD_LIFX_DISCOVERY_DEVICE_TIMEOUT_MSECS ∧
     (lgtd_lifx_discovery_watchdog_interval_callback spec_constants 40000 (fun _ => 30000)
        [example_bulb 1 40000] [example_gateway]
        (discovery_init spec_constants)).lgtd_lifx_bulbs_table = []) := by
  decide

/-- C4 (amended): when every bulb of the registry has a lag
`now - last_light_state_at` below 2^31 (so that it fits the `int` the code stores
it in), one run of the watchdog calls `lgtd_lifx_gateway_remove_and_close_bulb`
on exactly the bulbs whose lag is at least `DEVICE_TIMEOUT_MS`, flags
`start_discovery` when there is such a bulb, and the registry after the run
holds exactly the other bulbs whose gateway was not closed in the same run. -/
theorem watchdog_bulbs_contract (k : lgtd_lifx_discovery_constants) (now : Nat)
    (lag : lgtd_lifx_gateway → Int) (table : List lgtd_lifx_bulb)
    (gws : List lgtd_lifx_gateway) (d : lgtd_lifx_discovery)
    (hfit : ∀ b ∈ table, b.last_light_state_at ≤ now ∧
      now - b.last_light_state_at < 2147483648) :
    (lgtd_lifx_discovery_watchdog_interval_callback k now lag table gws d).closed_bulbs
      = table.filter (fun b => decide (k.LGTD_LIFX_DISCOVERY_DEVICE_TIMEOUT_MSECS
          ≤ (now : Int) - (b.last_light_state_at : Int))) ∧
    ((∃ b ∈ table, k.LGTD_LIFX_DISCOVERY_DEVICE_TIMEOUT_MSECS
          ≤ (now : Int) - (b.last_light_state_at : Int)) →
      (lgtd_lifx_discovery_watchdog_interval_callback k now lag table gws d).start_discovery
        = true) ∧
    (lgtd_lifx_discovery_watchdog_interval_callback k now lag table gws d).lgtd_lifx_bulbs_table
      = table.filter (fun b =>
          decide ((now : Int) - (b.last_light_state_at : Int)
            < k.LGTD_LIFX_DISCOVERY_DEVICE_TIMEOUT_MSECS) &&
          !((lgtd_lifx_discovery_watchdog_interval_callback k now lag table gws
              d).closed_gateways.any (fun g => decide (g.peeraddr = b.gw)))) := by
  obtain ⟨h1, h2, _, h4, h5, _⟩ := watchdog_callback_spec k now lag table gws d
  have hlag : ∀ b ∈ table,
      light_state_lag now b = (now : Int) - (b.last_light_state_at : Int) :=
    fun b hb => light_state_lag_of_fit now b (hfit b hb).1 (hfit b hb).2
  refine ⟨?_, ?_, ?_⟩
  · rw [h1]
    apply List.filter_congr
    intro b hb
    rw [hlag b hb]
  · rintro ⟨b, hb, hstale⟩
    rw [h4]
    have : table.any (fun b =>
        decide (light_state_lag now b ≥ k.LGTD_LIFX_DISCOVERY_DEVICE_TIMEOUT_MSECS)) = true := by
      rw [List.any_eq_true]
      exact ⟨b, hb, by rw [hlag b hb]; exact decide_eq_true hstale⟩
    rw [this, Bool.true_or]
  · rw [h5, h2, List.filter_filter]
    apply List.filter_congr
    intro b hb
    rw [hlag b hb, Bool.and_comm]
    congr 1
    by_cases hc : k.LGTD_LIFX_DISCOVERY_DEVICE_TIMEOUT_MSECS
        ≤ (now : Int) - (b.last_light_state_at : Int)
    · have : ¬ ((now : Int) - (b.last_light_state_at : Int)
          < k.LGTD_LIFX_DISCOVERY_DEVICE_TIMEOUT_MSECS) := not_lt.mpr hc
      simp [hc, this]
    · have : (now : Int) - (b.last_light_state_at : Int)
          < k.LGTD_LIFX_DISCOVERY_DEVICE_TIMEOUT_MSECS := not_le.mp hc
      simp [hc, this]

/-- C4 (witness): at the spec's constants and time 40 000 ms, of a bulb last
seen at 0 and a bulb last seen at 39 000, the first is closed and removed, the
second stays, and `start_discovery` is flagged. -/
theorem watchdog_bulbs_contract_witness :
    (lgtd_lifx_discovery_watchdog_interval_callback spec_constants 40000 (fun _ => 0)
        [example_bulb 1 0, example_bulb 2 39000] [example_gateway]
        (discovery_init spec_constants)).closed_bulbs = [example_bulb 1 0] ∧
    (lgtd_lifx_discovery_watchdog_interval_callback spec_constants 40000 (fun _ => 0)
        [example_bulb 1 0, example_bulb 2 39000] [example_gateway]
        (discovery_init spec_constants)).start_discovery = true ∧
    (lgtd_lifx_discovery_watchdog_interval_callback spec_constants 40000 (fun _ => 0)
        [example_bulb 1 0, example_bulb 2 39000] [example_gateway]
        (discovery_init spec_constants)).lgtd_lifx_bulbs_table = [example_bulb 2 39000] := by
  have h := watchdog_bulbs_contract spec_constants 40000 (fun _ => 0)
    [example_bulb 1 0, example_bulb 2 39000] [example_gateway]
    (discovery_init spec_constants) (by decide)
  refine ⟨?_, h.2.1 ⟨example_bulb 1 0, by simp, by decide⟩, ?_⟩
  · rw [h.1]; decide
  · rw [h.2.2]; decide

/-- C5 (counterexample): at the spec's constants a gateway whose lag is 30 000 ms
(at least `FORCE_REFRESH_MS = 5 000`) is closed by the watchdog and gets no
forced refresh. -/
theorem watchdog_gateways_counterexample :
    (30000 : Int) ≥ spec_constants.LGTD_LIFX_DISCOVERY_DEVICE_FORCE_REFRESH_MSECS ∧
    ((lgtd_lifx_discovery_watchdog_interval_callback spec_constants 40000 (fun _ => 30000)
        [] [example_gateway] (discovery_init spec_constants)).closed_gateways.map
      (fun g => g.peeraddr)) = [example_gateway.peeraddr] ∧
    ((lgtd_lifx_discovery_watchdog_interval_callback spec_constants 40000 (fun _ => 30000)
        [] [example_gateway] (discovery_init spec_constants)).refreshed_gateways.map
      (fun g => g.peeraddr)) = [] := by
  decide

/-- C5 (amended): in one run of the watchdog, with `gw_lag` the value of
`lgtd_lifx_gateway_msecs_since_last_update`, the gateways closed are exactly
those with `gw_lag ≥ DEVICE_TIMEOUT_MS` (and `start_discovery` is flagged when
there is one); the gateways that get a forced refresh are exactly those with
`FORCE_REFRESH_MS ≤ gw_lag < DEVICE_TIMEOUT_MS`; and, when
`FORCE_REFRESH_MS ≤ DEVICE_TIMEOUT_MS`, a gateway with `gw_lag < FORCE_REFRESH_MS`
is neither closed nor refreshed. -/
theorem watchdog_gateways_contract (k : lgtd_lifx_discovery_constants) (now : Nat)
    (lag : lgtd_lifx_gateway → Int) (table : List lgtd_lifx_bulb)
    (gws : List lgtd_lifx_gateway) (d : lgtd_lifx_discovery) :
    (lgtd_lifx_discovery_watchdog_interval_callback k now lag table gws d).closed_gateways
      = gws.filter (fun g => decide (lag g ≥ k.LGTD_LIFX_DISCOVERY_DEVICE_TIMEOUT_MSECS)) ∧
    ((∃ g ∈ gws, lag g ≥ k.LGTD_LIFX_DISCOVERY_DEVICE_TIMEOUT_MSECS) →
      (lgtd_lifx_discovery_watchdog_interval_callback k now lag table gws d).start_discovery
        = true) ∧
    (lgtd_lifx_discovery_watchdog_interval_callback k now lag table gws d).refreshed_gateways
      = gws.filter (fun g =>
          decide (lag g ≥ k.LGTD_LIFX_DISCOVERY_DEVICE_FORCE_REFRESH_MSECS ∧
                  lag g < k.LGTD_LIFX_DISCOVERY_DEVICE_TIMEOUT_MSECS)) ∧
    (k.LGTD_LIFX_DISCOVERY_DEVICE_FORCE_REFRESH_MSECS
        ≤ k.LGTD_LIFX_DISCOVERY_DEVICE_TIMEOUT_MSECS →
      ∀ g ∈ gws, lag g < k.LGTD_LIFX_DISCOVERY_DEVICE_FORCE_REFRESH_MSECS →
        g ∉ (lgtd_lifx_discovery_watchdog_interval_callback k now lag table gws
              d).closed_gateways ∧
        g ∉ (lgtd_lifx_discovery_watchdog_interval_callback k now lag table gws
              d).refreshed_gateways) := by
  obtain ⟨_, h2, h3, h4, _, _⟩ := watchdog_callback_spec k now lag table gws d
  refine ⟨h2, ?_, ?_, ?_⟩
  · rintro ⟨g, hg, hstale⟩
    rw [h4]
    have : gws.any (fun g =>
        decide (lag g ≥ k.LGTD_LIFX_DISCOVERY_DEVICE_TIMEOUT_MSECS)) = true := by
      rw [List.any_eq_true]
      exact ⟨g, hg, decide_eq_true hstale⟩
    rw [this, Bool.or_true]
  · rw [h3]
    apply List.filter_congr
    intro g _
    by_cases hc : lag g ≥ k.LGTD_LIFX_DISCOVERY_DEVICE_TIMEOUT_MSECS
    · have : ¬ lag g < k.LGTD_LIFX_DISCOVERY_DEVICE_TIMEOUT_MSECS := not_lt.mpr hc
      simp [hc, this]
    · have : lag g < k.LGTD_LIFX_DISCOVERY_DEVICE_TIMEOUT_MSECS := not_le.mp hc
      simp [hc, this]
  · intro hk g _ hlt
    rw [h2, h3]
    constructor
    · intro hmem
      have := (List.mem_filter.mp hmem).2
      simp only [decide_eq_true_eq] at this
      omega
    · intro hmem
      have := (List.mem_filter.mp hmem).2
      simp only [Bool.and_eq_true, decide_eq_true_eq] at this
      omega

/-- C5 (witness): at the spec's constants, where 5 000 ≤ 30 000, a gateway with
a lag of 1 000 ms is neither closed nor refreshed. -/
theorem watchdog_gateways_contract_witness :
    example_gateway ∉ (lgtd_lifx_discovery_watchdog_interval_callback spec_constants 40000
        (fun _ => 1000) [] [example_gateway] (discovery_init spec_constants)).closed_gateways ∧
    example_gateway ∉ (lgtd_lifx_discovery_watchdog_interval_callback spec_constants 40000
        (fun _ => 1000) [] [example_gateway] (discovery_init spec_constants)).refreshed_gateways :=
  (watchdog_gateways_contract spec_constants 40000 (fun _ => 1000) [] [example_gateway]
    (discovery_init spec_constants)).2.2.2 (by decide) example_gateway
    (List.mem_singleton.mpr rfl) (by decide)

/-- C6: one run of the watchdog calls `lgtd_lifx_broadcast_discovery` exactly
once when it closed at least one bulb or one gateway and not at all otherwise,
and in both cases leaves `lgtd_discovery_timeout`, the pending discovery timer
and the process status as they were. -/
theorem watchdog_broadcast_frame (k : lgtd_lifx_discovery_constants) (now : Nat)
    (lag : lgtd_lifx_gateway → Int) (table : List lgtd_lifx_bulb)
    (gws : List lgtd_lifx_gateway) (d : lgtd_lifx_discovery) :
    (lgtd_lifx_discovery_watchdog_interval_callback k now lag table gws d).discovery.broadcasts
      = (if (lgtd_lifx_discovery_watchdog_interval_callback k now lag table gws
              d).closed_bulbs.isEmpty = true ∧
            (lgtd_lifx_discovery_watchdog_interval_callback k now lag table gws
              d).closed_gateways.isEmpty = true
         then d.broadcasts else d.broadcasts + 1) ∧
    (lgtd_lifx_discovery_watchdog_interval_callback k now lag table gws
        d).discovery.lgtd_discovery_timeout = d.lgtd_discovery_timeout ∧
    (lgtd_lifx_discovery_watchdog_interval_callback k now lag table gws
        d).discovery.lgtd_discovery_timeout_ev = d.lgtd_discovery_timeout_ev ∧
    (lgtd_lifx_discovery_watchdog_interval_callback k now lag table gws
        d).discovery.terminated = d.terminated := by
  obtain ⟨h1, h2, _, _, _, h6⟩ := watchdog_callback_spec k now lag table gws d
  rw [h6, h1, h2, filter_isEmpty_eq_not_any, filter_isEmpty_eq_not_any]
  cases table.any (fun b =>
      decide (light_state_lag now b ≥ k.LGTD_LIFX_DISCOVERY_DEVICE_TIMEOUT_MSECS)) <;>
    cases gws.any (fun g =>
      decide (lag g ≥ k.LGTD_LIFX_DISCOVERY_DEVICE_TIMEOUT_MSECS)) <;> simp

/-! ### Option parsing -/

/-- C7 (failing input): for `lightsd -u nobody -d`, where `getopt_long` leaves
`optarg = NULL` for `-d`, the code of `-d` sets `foreground` to false and then
runs into the code of `-u`, which overwrites `lgtd_opts.user` with `NULL`: the
user given with `-u` is lost. -/
theorem daemonize_overwrites_user :
    lgtd_main_option main_env_ok (lgtd_getopt.d none)
        { foreground := true, log_timestamps := true, verbosity := 1,
          user := some "nobody".toList, group := none }
      = lgtd_parsed.go_on
        { foreground := false, log_timestamps := true, verbosity := 1,
          user := none, group := none } ∧
    lgtd_main_options main_env_ok [lgtd_getopt.u "nobody".toList, lgtd_getopt.d none]
        (lgtd_opts_init 1)
      = lgtd_parsed.go_on
        { foreground := false, log_timestamps := true, verbosity := 1,
          user := none, group := none } := by
  decide

theorem toLower_toNat_ne_zero (c : Char) (h : c ≠ Char.ofNat 0) : c.toLower.toNat ≠ 0 := by
  have hc : c.toNat ≠ 0 := by
    intro h0
    apply h
    rw [← Char.ofNat_toNat c, h0]
  unfold Char.toLower
  simp only []
  split
  · rename_i hr
    generalize c.toNat = n at hr
    obtain ⟨h1, h2⟩ := hr
    interval_cases n <;> decide
  · exact hc

theorem char_toNat_inj (a b : Char) (h : a.toNat = b.toNat) : a = b := by
  rw [← Char.ofNat_toNat a, ← Char.ofNat_toNat b, h]

theorem strcasecmp_eq_zero_iff (a : List Char) :
    ∀ b : List Char, is_c_string a → is_c_string b →
      (strcasecmp a b = 0 ↔ a.map Char.toLower = b.map Char.toLower) := by
  induction a with
  | nil =>
    intro b _ hb
    cases b with
    | nil => simp [strcasecmp]
    | cons c2 s2 =>
      have h2 := toLower_toNat_ne_zero c2 (hb c2 (List.mem_cons_self _ _))
      simp only [strcasecmp, List.map_nil, List.map_cons]
      constructor
      · intro h; omega
      · intro h; cases h
  | cons c1 s1 ih =>
    intro b ha hb
    have ha1 : is_c_string s1 := fun c hc => ha c (List.mem_cons_of_mem _ hc)
    cases b with
    | nil =>
      have h1 := toLower_toNat_ne_zero c1 (ha c1 (List.mem_cons_self _ _))
      simp only [strcasecmp, List.map_nil, List.map_cons]
      constructor
      · intro h; omega
      · intro h; cases h
    | cons c2 s2 =>
      have hb1 : is_c_string s2 := fun c hc => hb c (List.mem_cons_of_mem _ hc)
      simp only [strcasecmp, List.map_cons, List.cons.injEq]
      by_cases hc : c1.toLower = c2.toLower
      · simp only [hc, if_true, true_and]
        exact ih s2 ha1 hb1
      · simp only [hc, if_false, false_and, iff_false]
        intro h
        apply hc
        apply char_toNat_inj
        omega

theorem verbosity_loop_levels (s : List Char) (hs : is_c_string s) :
    verbosity_loop s verbose_levels 0
      = if s.map Char.toLower = "debug".toList then some 0
        else if s.map Char.toLower = "info".toList then some 1
        else if s.map Char.toLower = "warning".toList then some 2
        else if s.map Char.toLower = "error".toList then some 3
        else none := by
  have h0 : strcasecmp s "debug".toList = 0 ↔ s.map Char.toLower = "debug".toList :=
    strcasecmp_eq_zero_iff s _ hs (by decide)
  have h1 : strcasecmp s "info".toList = 0 ↔ s.map Char.toLower = "info".toList :=
    strcasecmp_eq_zero_iff s _ hs (by decide)
  have h2 : strcasecmp s "warning".toList = 0 ↔ s.map Char.toLower = "warning".toList :=
    strcasecmp_eq_zero_iff s _ hs (by decide)
  have h3 : strcasecmp s "error".toList = 0 ↔ s.map Char.toLower = "error".toList :=
    strcasecmp_eq_zero_iff s _ hs (by decide)
  simp only [verbose_levels, verbosity_loop, h0, h1, h2, h3]
  rfl

/-- C8: for every C string `s` given to `-v`: if `s`, compared without regard to
case, equals the level at index `i` of `debug`, `info`, `warning`, `error`, the
option code sets `lgtd_opts.verbosity` to `i`, changes nothing else and the loop
goes on; if `s` equals none of them, the process ends there through
`lgtd_errx(1, ...)` and no verbosity is stored. -/
theorem verbosity_option (env : lgtd_main_env) (s : List Char) (opts : lgtd_opts)
    (hs : is_c_string s) :
    (∀ i : Nat, verbose_levels[i]? = some (s.map Char.toLower) →
      lgtd_main_option env (lgtd_getopt.v s) opts
        = lgtd_parsed.go_on { opts with verbosity := (i : Int) }) ∧
    ((∀ level ∈ verbose_levels, s.map Char.toLower ≠ level) →
      lgtd_main_option env (lgtd_getopt.v s) opts = lgtd_parsed.exit 1) := by
  have hloop := verbosity_loop_levels s hs
  constructor
  · intro i hi
    simp only [lgtd_main_option, hloop]
    have d1 : "info".toList ≠ "debug".toList := by decide
    have d2 : "warning".toList ≠ "debug".toList := by decide
    have d3 : "warning".toList ≠ "info".toList := by decide
    have d4 : "error".toList ≠ "debug".toList := by decide
    have d5 : "error".toList ≠ "info".toList := by decide
    have d6 : "error".toList ≠ "warning".toList := by decide
    rcases i with _ | _ | _ | _ | i
    · simp only [verbose_levels, List.getElem?_cons_zero, Option.some.injEq] at hi
      simp [← hi]
    · simp only [verbose_levels, List.getElem?_cons_succ, List.getElem?_cons_zero,
        Option.some.injEq] at hi
      simp [← hi, d1]
    · simp only [verbose_levels, List.getElem?_cons_succ, List.getElem?_cons_zero,
        Option.some.injEq] at hi
      simp [← hi, d2, d3]
    · simp only [verbose_levels, List.getElem?_cons_succ, List.getElem?_cons_zero,
        Option.some.injEq] at hi
      simp [← hi, d4, d5, d6]
    · simp [verbose_levels] at hi
  · intro hnone
    have n0 : s.map Char.toLower ≠ "debug".toList := hnone _ (by simp [verbose_levels])
    have n1 : s.map Char.toLower ≠ "info".toList := hnone _ (by simp [verbose_levels])
    have n2 : s.map Char.toLower ≠ "warning".toList := hnone _ (by simp [verbose_levels])
    have n3 : s.map Char.toLower ≠ "error".toList := hnone _ (by simp [verbose_levels])
    simp only [lgtd_main_option, hloop, n0, n1, n2, n3, if_false]

/-- C8 (witness): `-v WARNING` stores verbosity 2 and the loop goes on;
`-v bogus` ends the process with status 1. -/
theorem verbosity_option_witness :
    lgtd_main_option main_env_ok (lgtd_getopt.v "WARNING".toList) (lgtd_opts_init 1)
      = lgtd_parsed.go_on { lgtd_opts_init 1 with verbosity := ((2 : Nat) : Int) } ∧
    lgtd_main_option main_env_ok (lgtd_getopt.v "bogus".toList) (lgtd_opts_init 1)
      = lgtd_parsed.exit 1 :=
  ⟨(verbosity_option main_env_ok "WARNING".toList (lgtd_opts_init 1) (by decide)).1 2
      (by decide),
   (verbosity_option main_env_ok "bogus".toList (lgtd_opts_init 1) (by decide)).2
      (by decide)⟩

theorem lgtd_main_options_append (env : lgtd_main_env) (pre rest : List lgtd_getopt) :
    ∀ opts o : lgtd_opts, lgtd_main_options env pre opts = lgtd_parsed.go_on o →
      lgtd_main_options env (pre ++ rest) opts = lgtd_main_options env rest o := by
  induction pre with
  | nil =>
    intro opts o h
    simp only [lgtd_main_options, lgtd_parsed.go_on.injEq] at h
    rw [List.nil_append, h]
  | cons rv pre ih =>
    intro opts o h
    simp only [List.cons_append, lgtd_main_options] at h ⊢
    cases hrv : lgtd_main_option env rv opts with
    | go_on o1 =>
      rw [hrv] at h
      simp only [] at h ⊢
      exact ih o1 o h
    | exit st =>
      rw [hrv] at h
      simp only [] at h
      cases h

theorem lgtd_main_option_status (env : lgtd_main_env) (rv : lgtd_getopt) (opts : lgtd_opts)
    (status : Int) (h : lgtd_main_option env rv opts = lgtd_parsed.exit status) :
    status = 0 ∨ status = 1 := by
  cases rv <;> simp only [lgtd_main_option] at h <;>
    (repeat' split at h) <;> simp_all

theorem lgtd_main_options_status (env : lgtd_main_env) (rvs : List lgtd_getopt) :
    ∀ (opts : lgtd_opts) (status : Int),
      lgtd_main_options env rvs opts = lgtd_parsed.exit status → status = 0 ∨ status = 1 := by
  induction rvs with
  | nil =>
    intro opts status h
    simp [lgtd_main_options] at h
  | cons rv rest ih =>
    intro opts status h
    simp only [lgtd_main_options] at h
    cases hrv : lgtd_main_option env rv opts with
    | go_on o1 =>
      rw [hrv] at h
      exact ih o1 status h
    | exit st =>
      rw [hrv] at h
      simp only [lgtd_parsed.exit.injEq] at h
      subst h
      exact lgtd_main_option_status env rv opts st hrv

/-- C9 (counterexample): `lightsd -v bogus` (unknown verbosity level) and
`lightsd -g wheel` (group without user) both end with exit status 1, not 2. -/
theorem invalid_configuration_counterexample :
    lgtd_main spec_constants main_env_ok 3 [lgtd_getopt.v "bogus".toList] (lgtd_opts_init 1)
      = lgtd_termination.exit 1 ∧
    lgtd_main spec_constants main_env_ok 3 [lgtd_getopt.v "bogus".toList] (lgtd_opts_init 1)
      ≠ lgtd_termination.exit 2 ∧
    lgtd_main spec_constants main_env_ok 3 [lgtd_getopt.g "wheel".toList] (lgtd_opts_init 1)
      = lgtd_termination.exit 1 := by
  decide

theorem lgtd_main_option_v_unknown (env : lgtd_main_env) (s : List Char) (o : lgtd_opts)
    (hs : is_c_string s) (hnone : ∀ level ∈ verbose_levels, s.map Char.toLower ≠ level) :
    lgtd_main_option env (lgtd_getopt.v s) o = lgtd_parsed.exit 1 := by
  have hloop := verbosity_loop_levels s hs
  have n0 : s.map Char.toLower ≠ "debug".toList := hnone _ (by simp [verbose_levels])
  have n1 : s.map Char.toLower ≠ "info".toList := hnone _ (by simp [verbose_levels])
  have n2 : s.map Char.toLower ≠ "warning".toList := hnone _ (by simp [verbose_levels])
  have n3 : s.map Char.toLower ≠ "error".toList := hnone _ (by simp [verbose_levels])
  simp only [lgtd_main_option, hloop, n0, n1, n2, n3, if_false]

theorem lgtd_main_option_exit (k : lgtd_lifx_discovery_constants) (env : lgtd_main_env)
    (argc : Nat) (opts o : lgtd_opts) (pre post : List lgtd_getopt) (rv : lgtd_getopt)
    (hargc : argc ≠ 1) (hpre : lgtd_main_options env pre opts = lgtd_parsed.go_on o)
    (hrv : lgtd_main_option env rv o = lgtd_parsed.exit 1) :
    lgtd_main k env argc (pre ++ rv :: post) opts = lgtd_termination.exit 1 := by
  have happ := lgtd_main_options_append env pre (rv :: post) opts o hpre
  simp only [lgtd_main, hargc, if_false, happ, lgtd_main_options, hrv]
  split <;> rfl

theorem lgtd_main_after_options (k : lgtd_lifx_discovery_constants) (env : lgtd_main_env)
    (argc : Nat) (opts o : lgtd_opts) (rvs : List lgtd_getopt)
    (hargc : argc ≠ 1) (hrvs : lgtd_main_options env rvs opts = lgtd_parsed.go_on o)
    (hrun : lgtd_main_run k env o = lgtd_termination.exit 1) :
    lgtd_main k env argc rvs opts = lgtd_termination.exit 1 := by
  simp only [lgtd_main, hargc, if_false, hrvs, hrun]
  split <;> rfl

theorem discovery_start_init_terminated (k : lgtd_lifx_discovery_constants)
    (e : lgtd_discovery_env) :
    (lgtd_lifx_discovery_start k e [] (discovery_init k)).terminated
      = (if e.event_add = 0 ∧ e.lgtd_lifx_broadcast_discovery = true then none
         else some (lgtd_termination.exit 1)) := by
  unfold lgtd_lifx_discovery_start discovery_init lgtd_lifx_discovery_timeout_event_callback
  by_cases he : e.event_add = 0
  · cases hb : e.lgtd_lifx_broadcast_discovery <;> simp [he]
  · simp [he]

theorem lgtd_main_privileges_status (env : lgtd_main_env) (o : lgtd_opts)
    (t : lgtd_termination) (h : lgtd_main_privileges env o = some t) :
    t = lgtd_termination.exit 1 ∨
    (∃ user, env.lgtd_daemon_set_user user = some t) ∨
    (∃ group, env.lgtd_daemon_set_group group = some t) ∨
    env.lgtd_daemon_drop_privileges = some t := by
  unfold lgtd_main_privileges at h
  cases hu : o.user with
  | none =>
    rw [hu] at h
    simp only [] at h
    split at h
    · simp only [Option.some.injEq] at h
      exact Or.inl h.symm
    · cases h
  | some user =>
    rw [hu] at h
    simp only [] at h
    cases h1 : env.lgtd_daemon_set_user user with
    | some st =>
      rw [h1] at h
      simp only [Option.some.injEq] at h
      subst h
      exact Or.inr (Or.inl ⟨user, h1⟩)
    | none =>
      rw [h1] at h
      simp only [] at h
      cases h2 : env.lgtd_daemon_set_group o.group with
      | some st =>
        rw [h2] at h
        simp only [Option.some.injEq] at h
        subst h
        exact Or.inr (Or.inr (Or.inl ⟨o.group, h2⟩))
      | none =>
        rw [h2] at h
        exact Or.inr (Or.inr (Or.inr h))

theorem lgtd_main_run_status (k : lgtd_lifx_discovery_constants) (env : lgtd_main_env)
    (o : lgtd_opts) :
    lgtd_main_run k env o = lgtd_termination.exit 0 ∨
    lgtd_main_run k env o = lgtd_termination.exit 1 ∨
    (∃ user, env.lgtd_daemon_set_user user = some (lgtd_main_run k env o)) ∨
    (∃ group, env.lgtd_daemon_set_group group = some (lgtd_main_run k env o)) ∨
    env.lgtd_daemon_drop_privileges = some (lgtd_main_run k env o) ∨
    (∃ user, env.lgtd_daemon_die_if_running_as_root_unless_requested user
      = some (lgtd_main_run k env o)) ∨
    env.event_base_dispatch = some (lgtd_main_run k env o) := by
  unfold lgtd_main_run
  cases hp : lgtd_main_privileges env o with
  | some st =>
    simp only []
    rcases lgtd_main_privileges_status env o st hp with h | h | h | h
    · exact Or.inr (Or.inl h)
    · exact Or.inr (Or.inr (Or.inl h))
    · exact Or.inr (Or.inr (Or.inr (Or.inl h)))
    · exact Or.inr (Or.inr (Or.inr (Or.inr (Or.inl h))))
  | none =>
    simp only []
    cases hd : env.lgtd_daemon_die_if_running_as_root_unless_requested o.user with
    | some st =>
      simp only []
      exact Or.inr (Or.inr (Or.inr (Or.inr (Or.inr (Or.inl ⟨o.user, hd⟩)))))
    | none =>
      simp only []
      split
      · exact Or.inr (Or.inl rfl)
      · split
        · exact Or.inr (Or.inl rfl)
        · rw [discovery_start_init_terminated]
          by_cases hc : env.discovery_start.event_add = 0 ∧
              env.discovery_start.lgtd_lifx_broadcast_discovery = true
          · rw [if_pos hc]
            cases hdisp : env.event_base_dispatch with
            | some st =>
              exact Or.inr (Or.inr (Or.inr (Or.inr (Or.inr (Or.inr rfl)))))
            | none =>
              exact Or.inl rfl
          · rw [if_neg hc]
            exact Or.inr (Or.inl rfl)

/-- C9 (amended): (1) when the command line has arguments and the option loop,
the options before it having been handled without ending the program, reaches
`-v s` with `s` a C string that is none of the four levels, the program ends
with exit status 1, not 2; (2) so it does when the option loop completes with a
group (`-g`) and no user. (3) Status 1 is not reserved for setup failures, which
give it as well: a failing `sigaction` in the signal setup; a failing
`lgtd_listen_open` at `-l addr:port` with a non-empty port, a failing
`lgtd_command_pipe_open` at `-c` or a failing `lgtd_listen_unix_open` at `-s`
(the options before it having been handled without ending the program); and,
once the option loop has completed and the user and group step and the root
check have returned, a failing `lgtd_lifx_discovery_setup` or
`lgtd_lifx_broadcast_setup`, a failing `lgtd_daemon_unleash` when `foreground`
is false, or a failing first discovery (`event_add` or the broadcast).
(4) `main` itself ends the process with status 0 or 1 only: any other end is
one returned by `lgtd_daemon_set_user`, `lgtd_daemon_set_group`,
`lgtd_daemon_drop_privileges`,
`lgtd_daemon_die_if_running_as_root_unless_requested` or a callback run by
`event_base_dispatch`, whose code is absent. -/
theorem invalid_configuration_exit (k : lgtd_lifx_discovery_constants) (env : lgtd_main_env)
    (argc : Nat) (opts : lgtd_opts) :
    (∀ (pre post : List lgtd_getopt) (s : List Char) (o : lgtd_opts),
      argc ≠ 1 → lgtd_main_options env pre opts = lgtd_parsed.go_on o →
      is_c_string s → (∀ level ∈ verbose_levels, s.map Char.toLower ≠ level) →
      lgtd_main k env argc (pre ++ lgtd_getopt.v s :: post) opts = lgtd_termination.exit 1 ∧
      lgtd_main k env argc (pre ++ lgtd_getopt.v s :: post) opts
        ≠ lgtd_termination.exit 2) ∧
    (∀ (rvs : List lgtd_getopt) (o : lgtd_opts),
      argc ≠ 1 → lgtd_main_options env rvs opts = lgtd_parsed.go_on o →
      o.user = none → o.group ≠ none →
      lgtd_main k env argc rvs opts = lgtd_termination.exit 1 ∧
      lgtd_main k env argc rvs opts ≠ lgtd_termination.exit 2) ∧
    ((env.sigaction ≠ 0 →
        ∀ rvs : List lgtd_getopt, lgtd_main k env argc rvs opts = lgtd_termination.exit 1) ∧
     (∀ (pre post : List lgtd_getopt) (optarg addr port : List Char) (o : lgtd_opts),
        argc ≠ 1 → lgtd_main_options env pre opts = lgtd_parsed.go_on o →
        strrchr_colon optarg = some (addr, port) → port ≠ [] →
        env.lgtd_listen_open addr port = false →
        lgtd_main k env argc (pre ++ lgtd_getopt.l optarg :: post) opts
          = lgtd_termination.exit 1) ∧
     (∀ (pre post : List lgtd_getopt) (optarg : List Char) (o : lgtd_opts),
        argc ≠ 1 → lgtd_main_options env pre opts = lgtd_parsed.go_on o →
        env.lgtd_command_pipe_open optarg = false →
        lgtd_main k env argc (pre ++ lgtd_getopt.c optarg :: post) opts
          = lgtd_termination.exit 1) ∧
     (∀ (pre post : List lgtd_getopt) (optarg : List Char) (o : lgtd_opts),
        argc ≠ 1 → lgtd_main_options env pre opts = lgtd_parsed.go_on o →
        env.lgtd_listen_unix_open optarg = false →
        lgtd_main k env argc (pre ++ lgtd_getopt.s optarg :: post) opts
          = lgtd_termination.exit 1) ∧
     (∀ (rvs : List lgtd_getopt) (o : lgtd_opts),
        argc ≠ 1 → lgtd_main_options env rvs opts = lgtd_parsed.go_on o →
        lgtd_main_privileges env o = none →
        env.lgtd_daemon_die_if_running_as_root_unless_requested o.user = none →
        (env.lgtd_lifx_discovery_setup = false ∨ env.lgtd_lifx_broadcast_setup = false ∨
         (o.foreground = false ∧ env.lgtd_daemon_unleash = false) ∨
         env.discovery_start.event_add ≠ 0 ∨
         env.discovery_start.lgtd_lifx_broadcast_discovery = false) →
        lgtd_main k env argc rvs opts = lgtd_termination.exit 1)) ∧
    (∀ (rvs : List lgtd_getopt),
      lgtd_main k env argc rvs opts = lgtd_termination.exit 0 ∨
      lgtd_main k env argc rvs opts = lgtd_termination.exit 1 ∨
      (∃ user, env.lgtd_daemon_set_user user = some (lgtd_main k env argc rvs opts)) ∨
      (∃ group, env.lgtd_daemon_set_group group = some (lgtd_main k env argc rvs opts)) ∨
      env.lgtd_daemon_drop_privileges = some (lgtd_main k env argc rvs opts) ∨
      (∃ user, env.lgtd_daemon_die_if_running_as_root_unless_requested user
        = some (lgtd_main k env argc rvs opts)) ∨
      env.event_base_dispatch = some (lgtd_main k env argc rvs opts)) := by
  refine ⟨?_, ?_, ⟨?_, ?_, ?_, ?_, ?_⟩, ?_⟩
  · intro pre post s o hargc hpre hs hnone
    have h := lgtd_main_option_exit k env argc opts o pre post (lgtd_getopt.v s) hargc hpre
      (lgtd_main_option_v_unknown env s o hs hnone)
    exact ⟨h, by rw [h]; decide⟩
  · intro rvs o hargc hrvs hu hg
    have hpriv : lgtd_main_privileges env o = some (lgtd_termination.exit 1) := by
      unfold lgtd_main_privileges
      rw [hu]
      cases hgo : o.group with
      | none => exact absurd hgo hg
      | some g => simp
    have h := lgtd_main_after_options k env argc opts o rvs hargc hrvs
      (by simp only [lgtd_main_run, hpriv])
    exact ⟨h, by rw [h]; decide⟩
  · intro hsig rvs
    simp only [lgtd_main, hsig, ne_eq, not_false_eq_true, if_true]
  · intro pre post optarg addr port o hargc hpre hsplit hport hopen
    apply lgtd_main_option_exit k env argc opts o pre post _ hargc hpre
    simp [lgtd_main_option, hsplit, hport, hopen]
  · intro pre post optarg o hargc hpre hopen
    apply lgtd_main_option_exit k env argc opts o pre post _ hargc hpre
    simp [lgtd_main_option, hopen]
  · intro pre post optarg o hargc hpre hopen
    apply lgtd_main_option_exit k env argc opts o pre post _ hargc hpre
    simp [lgtd_main_option, hopen]
  · intro rvs o hargc hrvs hpriv hdie hfail
    apply lgtd_main_after_options k env argc opts o rvs hargc hrvs
    simp only [lgtd_main_run, hpriv, hdie, discovery_start_init_terminated]
    rcases hfail with h | h | h | h | h
    · simp [h]
    · simp [h]
    · simp [h.1, h.2]
    · split
      · rfl
      · split
        · rfl
        · simp [h]
    · split
      · rfl
      · split
        · rfl
        · simp [h]
  · intro rvs
    unfold lgtd_main
    split
    · exact Or.inr (Or.inl rfl)
    · split
      · exact Or.inl rfl
      · cases hopt : lgtd_main_options env rvs opts with
        | exit status =>
          simp only []
          rcases lgtd_main_options_status env rvs opts status hopt with h | h
          · exact Or.inl (by rw [h])
          · exact Or.inr (Or.inl (by rw [h]))
        | go_on o =>
          simp only []
          exact lgtd_main_run_status k env o

/-- C9 (witness): `lightsd -f -v bogus` ends with status 1, and so does
`lightsd -d -g wheel`, where the loop completes with a group and no user;
`lightsd -f` with every external call succeeding except
`lgtd_lifx_broadcast_setup` ends with status 1 as well. By contrast
`lightsd -f -x -v bogus` ends with status 0: the unknown option `-x` ends the
program in `lgtd_usage` before `-v` is reached. -/
theorem invalid_configuration_exit_witness :
    lgtd_main spec_constants main_env_ok 4 ([lgtd_getopt.f] ++ lgtd_getopt.v "bogus".toList :: [])
        (lgtd_opts_init 1) = lgtd_termination.exit 1 ∧
    lgtd_main spec_constants main_env_ok 4 [lgtd_getopt.d none, lgtd_getopt.g "wheel".toList]
        (lgtd_opts_init 1) = lgtd_termination.exit 1 ∧
    lgtd_main spec_constants { main_env_ok with lgtd_lifx_broadcast_setup := false } 2
        [lgtd_getopt.f] (lgtd_opts_init 1) = lgtd_termination.exit 1 ∧
    lgtd_main spec_constants main_env_ok 4
        [lgtd_getopt.f, lgtd_getopt.unknown, lgtd_getopt.v "bogus".toList]
        (lgtd_opts_init 1) = lgtd_termination.exit 0 :=
  ⟨((invalid_configuration_exit spec_constants main_env_ok 4 (lgtd_opts_init 1)).1
      [lgtd_getopt.f] [] "bogus".toList { lgtd_opts_init 1 with foreground := true }
      (by decide) (by decide) (by decide) (by decide)).1,
   ((invalid_configuration_exit spec_constants main_env_ok 4 (lgtd_opts_init 1)).2.1
      [lgtd_getopt.d none, lgtd_getopt.g "wheel".toList]
      { lgtd_opts_init 1 with foreground := false, group := some "wheel".toList }
      (by decide) (by decide) (by decide) (by decide)).1,
   (invalid_configuration_exit spec_constants
      { main_env_ok with lgtd_lifx_broadcast_setup := false } 2
      (lgtd_opts_init 1)).2.2.1.2.2.2.2
      [lgtd_getopt.f] { lgtd_opts_init 1 with foreground := true }
      (by decide) (by decide) (by decide) (by decide) (Or.inr (Or.inl rfl)),
   by decide⟩

/-! ### Tag labels -/

theorem handle_tag_labels_fold (pkt : lgtd_lifx_packet_tag_labels) (hl : pkt.label ≠ [])
    (l : List (Fin 64)) :
    ∀ g : lgtd_lifx_gateway,
      (∀ j : Nat,
        (l.foldl (handle_tag_labels_step pkt) g).tag_ids.testBit j
          = (g.tag_ids.testBit j ||
              (pkt.tags.testBit j && decide (∃ i ∈ l, i.val = j)))) ∧
      (∀ i : Fin 64,
        (l.foldl (handle_tag_labels_step pkt) g).tags i
          = if i ∈ l ∧ pkt.tags.testBit i.val = true then some { label := pkt.label }
            else g.tags i) ∧
      (l.foldl (handle_tag_labels_step pkt) g).peeraddr = g.peeraddr := by
  induction l with
  | nil =>
    intro g
    simp
  | cons a l ih =>
    intro g
    simp only [List.foldl_cons]
    by_cases ha : pkt.tags.testBit a.val = true
    · have hstep : handle_tag_labels_step pkt g a
          = lgtd_lifx_gateway_allocate_tag_id g a pkt.label := by
        simp [handle_tag_labels_step, ha, hl]
      rw [hstep]
      obtain ⟨h1, h2, h3⟩ := ih (lgtd_lifx_gateway_allocate_tag_id g a pkt.label)
      refine ⟨?_, ?_, ?_⟩
      · intro j
        rw [h1 j]
        simp only [lgtd_lifx_gateway_allocate_tag_id, Nat.testBit_or, Nat.one_shiftLeft,
          Nat.testBit_two_pow]
        by_cases hj : a.val = j
        · subst hj
          simp [ha]
        · by_cases hex : ∃ i ∈ l, i.val = j
          · have hex2 : ∃ i ∈ a :: l, i.val = j := by
              obtain ⟨i, hi, hij⟩ := hex
              exact ⟨i, List.mem_cons_of_mem _ hi, hij⟩
            simp only [hj, decide_False, Bool.or_false, decide_eq_true hex,
              decide_eq_true hex2]
          · have hex2 : ¬ ∃ i ∈ a :: l, i.val = j := by
              rintro ⟨i, hi, hij⟩
              rcases List.mem_cons.mp hi with hi | hi
              · subst hi; exact hj hij
              · exact hex ⟨i, hi, hij⟩
            simp only [hj, decide_False, Bool.or_false, decide_eq_false hex,
              decide_eq_false hex2]
      · intro i
        rw [h2 i]
        by_cases hia : i = a
        · subst hia
          simp [ha, lgtd_lifx_gateway_allocate_tag_id]
        · simp [hia, lgtd_lifx_gateway_allocate_tag_id, Function.update_noteq hia]
      · rw [h3]
        rfl
    · have hstep : handle_tag_labels_step pkt g a = g := by
        simp [handle_tag_labels_step, ha]
      rw [hstep]
      obtain ⟨h1, h2, h3⟩ := ih g
      refine ⟨?_, ?_, h3⟩
      · intro j
        rw [h1 j]
        by_cases hj : a.val = j
        · subst hj
          simp [ha]
        · by_cases hex : ∃ i ∈ l, i.val = j
          · have hex2 : ∃ i ∈ a :: l, i.val = j := by
              obtain ⟨i, hi, hij⟩ := hex
              exact ⟨i, List.mem_cons_of_mem _ hi, hij⟩
            simp only [decide_eq_true hex, decide_eq_true hex2]
          · have hex2 : ¬ ∃ i ∈ a :: l, i.val = j := by
              rintro ⟨i, hi, hij⟩
              rcases List.mem_cons.mp hi with hi | hi
              · subst hi; exact hj hij
              · exact hex ⟨i, hi, hij⟩
            simp only [decide_eq_false hex, decide_eq_false hex2]
      · intro i
        rw [h2 i]
        by_cases hia : i = a
        · subst hia
          simp [ha]
        · simp [hia]

theorem handle_tag_labels_no_bits (pkt : lgtd_lifx_packet_tag_labels) (h0 : pkt.tags = 0)
    (l : List (Fin 64)) :
    ∀ g : lgtd_lifx_gateway, l.foldl (handle_tag_labels_step pkt) g = g := by
  induction l with
  | nil => intro g; rfl
  | cons a l ih =>
    intro g
    have hstep : handle_tag_labels_step pkt g a = g := by
      simp [handle_tag_labels_step, h0]
    rw [List.foldl_cons, hstep]
    exact ih g

/-- C10: for every gateway state, every tag bitmap `B` below 2^64 and every
non-empty label `L`, after `lgtd_lifx_gateway_handle_tag_labels` handles the
packet with `tags = B` and `label = L`, `gw.tag_ids` is the previous value OR
`B`, every slot whose bit is set in `B` holds the label `L`, and every other slot
is as before; and a packet whose bitmap is 0 (whatever its label, the empty one
included) leaves `gw.tag_ids` and every slot unchanged. -/
theorem handle_tag_labels_contract (gw : lgtd_lifx_gateway)
    (pkt : lgtd_lifx_packet_tag_labels) :
    (pkt.tags < 2 ^ 64 → pkt.label ≠ [] →
      (lgtd_lifx_gateway_handle_tag_labels gw pkt).tag_ids = gw.tag_ids ||| pkt.tags ∧
      ∀ i : Fin 64,
        (pkt.tags.testBit i.val = true →
          (lgtd_lifx_gateway_handle_tag_labels gw pkt).tags i
            = some { label := pkt.label }) ∧
        (pkt.tags.testBit i.val = false →
          (lgtd_lifx_gateway_handle_tag_labels gw pkt).tags i = gw.tags i)) ∧
    (pkt.tags = 0 →
      (lgtd_lifx_gateway_handle_tag_labels gw pkt).tag_ids = gw.tag_ids ∧
      (lgtd_lifx_gateway_handle_tag_labels gw pkt).tags = gw.tags) := by
  constructor
  · intro hB hl
    obtain ⟨h1, h2, _⟩ := handle_tag_labels_fold pkt hl (List.finRange 64) gw
    refine ⟨?_, ?_⟩
    · apply Nat.eq_of_testBit_eq
      intro j
      unfold lgtd_lifx_gateway_handle_tag_labels
      rw [h1 j, Nat.testBit_or]
      by_cases hj : j < 64
      · have hex : ∃ i ∈ List.finRange 64, i.val = j :=
          ⟨⟨j, hj⟩, List.mem_finRange _, rfl⟩
        simp only [decide_eq_true hex, Bool.and_true]
      · have hlt : pkt.tags < 2 ^ j :=
          lt_of_lt_of_le hB (Nat.pow_le_pow_right (by norm_num) (by omega))
        rw [Nat.testBit_lt_two_pow hlt]
        simp
    · intro i
      unfold lgtd_lifx_gateway_handle_tag_labels
      rw [h2 i]
      constructor
      · intro hi
        simp [hi, List.mem_finRange]
      · intro hi
        simp [hi]
  · intro h0
    unfold lgtd_lifx_gateway_handle_tag_labels
    rw [handle_tag_labels_no_bits pkt h0]
    exact ⟨rfl, rfl⟩

/-- C10 (witness): the steps of `test_gateway_handle_tag_labels.c` on a zeroed
gateway: the packet `tags = 1 << 42`, `label = "test"` gives
`tag_ids = 1 << 42` and the label `test` in slot 42, and the all-zero packet
that follows leaves both as they are. -/
theorem handle_tag_labels_contract_witness :
    (lgtd_lifx_gateway_handle_tag_labels zero_gateway
        { tags := TAG_ID_TO_VALUE 42, label := "test".toList }).tag_ids
      = 0 ||| TAG_ID_TO_VALUE 42 ∧
    (lgtd_lifx_gateway_handle_tag_labels zero_gateway
        { tags := TAG_ID_TO_VALUE 42, label := "test".toList }).tags 42
      = some { label := "test".toList } ∧
    (lgtd_lifx_gateway_handle_tag_labels
        (lgtd_lifx_gateway_handle_tag_labels zero_gateway
          { tags := TAG_ID_TO_VALUE 42, label := "test".toList })
        { tags := 0, label := [] }).tag_ids
      = (lgtd_lifx_gateway_handle_tag_labels zero_gateway
          { tags := TAG_ID_TO_VALUE 42, label := "test".toList }).tag_ids :=
  have h := (handle_tag_labels_contract zero_gateway
    { tags := TAG_ID_TO_VALUE 42, label := "test".toList }).1 (by decide) (by decide)
  ⟨h.1, (h.2 42).1 (by decide),
   ((handle_tag_labels_contract
      (lgtd_lifx_gateway_handle_tag_labels zero_gateway
        { tags := TAG_ID_TO_VALUE 42, label := "test".toList })
      { tags := 0, label := [] }).2 rfl).1⟩

/-- The checks of `test_gateway_handle_tag_labels.c` hold on the model of the
handler: the final `tag_ids` is bits 42, 2 and 4, slots 2 and 4 hold `toto` and
slot 42 holds `test`. -/
theorem test_gateway_handle_tag_labels_passes :
    (lgtd_lifx_gateway_handle_tag_labels zero_gateway
        { tags := 0, label := "test".toList }).tag_ids = 0 ∧
    test_gateway_handle_tag_labels.tag_ids
      = TAG_ID_TO_VALUE 42 ||| TAG_ID_TO_VALUE 2 ||| TAG_ID_TO_VALUE 4 ∧
    test_gateway_handle_tag_labels.tags 2 = some { label := "toto".toList } ∧
    test_gateway_handle_tag_labels.tags 4 = some { label := "toto".toList } ∧
    test_gateway_handle_tag_labels.tags 42 = some { label := "test".toList } := by
  decide

/-! ### Bounds of the discovery interval -/

/-- C11 (counterexample): `ACTIVE ≤ PASSIVE` alone does not give the bounds.
With `ACTIVE = PASSIVE = 2^30`, the state after a cold start has the interval
2^30, whose double 2^31 exceeds `INT_MAX`, and the next expiry that finds a
gateway stores -2^31, below `ACTIVE`. With `ACTIVE = -1` and `PASSIVE = 60000`,
the first expiry that finds a gateway stores -2, below `ACTIVE`. -/
theorem discovery_interval_bounds_counterexample :
    (wide_constants.LGTD_LIFX_DISCOVERY_ACTIVE_DISCOVERY_INTERVAL_MSECS
        ≤ wide_constants.LGTD_LIFX_DISCOVERY_PASSIVE_DISCOVERY_INTERVAL_MSECS ∧
     INT_MAX < (lgtd_lifx_discovery_start wide_constants env_ok []
        (discovery_init wide_constants)).lgtd_discovery_timeout * 2 ∧
     (discovery_run wide_constants
        (lgtd_lifx_discovery_start wide_constants env_ok [] (discovery_init wide_constants))
        [⟨env_ok, [example_gateway]⟩]).lgtd_discovery_timeout = -2147483648 ∧
     (discovery_run wide_constants
        (lgtd_lifx_discovery_start wide_constants env_ok [] (discovery_init wide_constants))
        [⟨env_ok, [example_gateway]⟩]).lgtd_discovery_timeout
       < wide_constants.LGTD_LIFX_DISCOVERY_ACTIVE_DISCOVERY_INTERVAL_MSECS) ∧
    (negative_constants.LGTD_LIFX_DISCOVERY_ACTIVE_DISCOVERY_INTERVAL_MSECS
        ≤ negative_constants.LGTD_LIFX_DISCOVERY_PASSIVE_DISCOVERY_INTERVAL_MSECS ∧
     (discovery_run negative_constants
        (lgtd_lifx_discovery_start negative_constants env_ok []
          (discovery_init negative_constants))
        [⟨env_ok, [example_gateway]⟩]).lgtd_discovery_timeout = -2 ∧
     (discovery_run negative_constants
        (lgtd_lifx_discovery_start negative_constants env_ok []
          (discovery_init negative_constants))
        [⟨env_ok, [example_gateway]⟩]).lgtd_discovery_timeout
       < negative_constants.LGTD_LIFX_DISCOVERY_ACTIVE_DISCOVERY_INTERVAL_MSECS) := by
  decide

theorem callback_bounds (k : lgtd_lifx_discovery_constants) (hk : k.intervals_ok)
    (env : lgtd_discovery_env) (gws : List lgtd_lifx_gateway) (s : lgtd_lifx_discovery)
    (h0 : k.LGTD_LIFX_DISCOVERY_ACTIVE_DISCOVERY_INTERVAL_MSECS ≤ s.lgtd_discovery_timeout)
    (h1 : s.lgtd_discovery_timeout ≤ k.LGTD_LIFX_DISCOVERY_PASSIVE_DISCOVERY_INTERVAL_MSECS) :
    k.LGTD_LIFX_DISCOVERY_ACTIVE_DISCOVERY_INTERVAL_MSECS
      ≤ (lgtd_lifx_discovery_timeout_event_callback k env gws s).lgtd_discovery_timeout ∧
    (lgtd_lifx_discovery_timeout_event_callback k env gws s).lgtd_discovery_timeout
      ≤ k.LGTD_LIFX_DISCOVERY_PASSIVE_DISCOVERY_INTERVAL_MSECS := by
  have ha := hk.1
  have hap := hk.2.1
  by_cases hg : gws = []
  · subst hg
    rw [callback_timeout_empty]
    exact ⟨le_refl _, hap⟩
  · rw [callback_timeout_nonempty k env gws s hk hg (le_trans ha h0) h1]
    constructor <;> omega

theorem discovery_fire_bounds (k : lgtd_lifx_discovery_constants) (hk : k.intervals_ok)
    (s : lgtd_lifx_discovery) (f : lgtd_discovery_fire)
    (h0 : k.LGTD_LIFX_DISCOVERY_ACTIVE_DISCOVERY_INTERVAL_MSECS ≤ s.lgtd_discovery_timeout)
    (h1 : s.lgtd_discovery_timeout ≤ k.LGTD_LIFX_DISCOVERY_PASSIVE_DISCOVERY_INTERVAL_MSECS) :
    k.LGTD_LIFX_DISCOVERY_ACTIVE_DISCOVERY_INTERVAL_MSECS
      ≤ (discovery_fire k s f).lgtd_discovery_timeout ∧
    (discovery_fire k s f).lgtd_discovery_timeout
      ≤ k.LGTD_LIFX_DISCOVERY_PASSIVE_DISCOVERY_INTERVAL_MSECS := by
  unfold discovery_fire
  split
  · exact ⟨h0, h1⟩
  · exact callback_bounds k hk f.env f.lgtd_lifx_gateways
      { s with lgtd_discovery_timeout_ev := none } h0 h1

theorem discovery_run_bounds (k : lgtd_lifx_discovery_constants) (hk : k.intervals_ok)
    (fires : List lgtd_discovery_fire) :
    ∀ s : lgtd_lifx_discovery,
      k.LGTD_LIFX_DISCOVERY_ACTIVE_DISCOVERY_INTERVAL_MSECS ≤ s.lgtd_discovery_timeout →
      s.lgtd_discovery_timeout ≤ k.LGTD_LIFX_DISCOVERY_PASSIVE_DISCOVERY_INTERVAL_MSECS →
      k.LGTD_LIFX_DISCOVERY_ACTIVE_DISCOVERY_INTERVAL_MSECS
        ≤ (discovery_run k s fires).lgtd_discovery_timeout ∧
      (discovery_run k s fires).lgtd_discovery_timeout
        ≤ k.LGTD_LIFX_DISCOVERY_PASSIVE_DISCOVERY_INTERVAL_MSECS := by
  induction fires with
  | nil =>
    intro s h0 h1
    exact ⟨h0, h1⟩
  | cons f fs ih =>
    intro s h0 h1
    obtain ⟨g0, g1⟩ := discovery_fire_bounds k hk s f h0 h1
    have h := ih (discovery_fire k s f) g0 g1
    simpa only [discovery_run, List.foldl_cons] using h

theorem discovery_start_bounds (k : lgtd_lifx_discovery_constants) (hk : k.intervals_ok)
    (env0 : lgtd_discovery_env) (gws0 : List lgtd_lifx_gateway) (s : lgtd_lifx_discovery)
    (hev : s.lgtd_discovery_timeout_ev = none) :
    k.LGTD_LIFX_DISCOVERY_ACTIVE_DISCOVERY_INTERVAL_MSECS
      ≤ (lgtd_lifx_discovery_start k env0 gws0 s).lgtd_discovery_timeout ∧
    (lgtd_lifx_discovery_start k env0 gws0 s).lgtd_discovery_timeout
      ≤ k.LGTD_LIFX_DISCOVERY_PASSIVE_DISCOVERY_INTERVAL_MSECS := by
  have hstart : lgtd_lifx_discovery_start k env0 gws0 s
      = lgtd_lifx_discovery_timeout_event_callback k env0 gws0
          { s with lgtd_discovery_timeout :=
                     k.LGTD_LIFX_DISCOVERY_ACTIVE_DISCOVERY_INTERVAL_MSECS } := by
    unfold lgtd_lifx_discovery_start
    simp [hev]
  rw [hstart]
  exact callback_bounds k hk env0 gws0 _ (le_refl _) hk.2.1

/-- C11 (amended): for constants with `0 ≤ ACTIVE ≤ PASSIVE` and
`2 * PASSIVE ≤ INT_MAX`, in every state reached from `lgtd_lifx_discovery_start`
(run with the timer not pending, as its `assert` requires, and with any gateway
list) by any sequence of discovery timer expiries, each with an empty or a
non-empty gateway list and with external calls that succeed or fail, the
interval satisfies `ACTIVE ≤ lgtd_discovery_timeout ≤ PASSIVE`; hence the
product `lgtd_discovery_timeout * 2` the callback would compute is at most
`2 * PASSIVE`, lies in `INT_MIN .. INT_MAX`, and is left unchanged by the
reduction to a 32-bit `int`. -/
theorem discovery_interval_bounds (k : lgtd_lifx_discovery_constants)
    (hk : k.intervals_ok) (env0 : lgtd_discovery_env) (gws0 : List lgtd_lifx_gateway)
    (s : lgtd_lifx_discovery) (fires : List lgtd_discovery_fire)
    (hev : s.lgtd_discovery_timeout_ev = none) :
    k.LGTD_LIFX_DISCOVERY_ACTIVE_DISCOVERY_INTERVAL_MSECS
      ≤ (discovery_run k (lgtd_lifx_discovery_start k env0 gws0 s)
          fires).lgtd_discovery_timeout ∧
    (discovery_run k (lgtd_lifx_discovery_start k env0 gws0 s)
        fires).lgtd_discovery_timeout
      ≤ k.LGTD_LIFX_DISCOVERY_PASSIVE_DISCOVERY_INTERVAL_MSECS ∧
    (discovery_run k (lgtd_lifx_discovery_start k env0 gws0 s)
        fires).lgtd_discovery_timeout * 2
      ≤ 2 * k.LGTD_LIFX_DISCOVERY_PASSIVE_DISCOVERY_INTERVAL_MSECS ∧
    INT_MIN ≤ (discovery_run k (lgtd_lifx_discovery_start k env0 gws0 s)
        fires).lgtd_discovery_timeout * 2 ∧
    (discovery_run k (lgtd_lifx_discovery_start k env0 gws0 s)
        fires).lgtd_discovery_timeout * 2 ≤ INT_MAX ∧
    wrap_int ((discovery_run k (lgtd_lifx_discovery_start k env0 gws0 s)
        fires).lgtd_discovery_timeout * 2)
      = (discovery_run k (lgtd_lifx_discovery_start k env0 gws0 s)
          fires).lgtd_discovery_timeout * 2 := by
  obtain ⟨s0, s1⟩ := discovery_start_bounds k hk env0 gws0 s hev
  obtain ⟨r0, r1⟩ := discovery_run_bounds k hk fires _ s0 s1
  obtain ⟨ha, _, hp⟩ := hk
  have hmin : INT_MIN ≤ (discovery_run k (lgtd_lifx_discovery_start k env0 gws0 s)
      fires).lgtd_discovery_timeout * 2 := by
    unfold INT_MIN
    omega
  have hmax : (discovery_run k (lgtd_lifx_discovery_start k env0 gws0 s)
      fires).lgtd_discovery_timeout * 2 ≤ INT_MAX := by
    omega
  exact ⟨r0, r1, by omega, hmin, hmax, wrap_int_of_range _ hmin hmax⟩

/-- C11 (witness): at the spec's constants, after a cold start and four
expiries that find a gateway, a gateway, no gateway, a gateway, the interval is
4 000 ms, between 2 000 and 60 000, and its double fits a C `int`. -/
theorem discovery_interval_bounds_witness :
    spec_constants.intervals_ok ∧
    (discovery_run spec_constants
        (lgtd_lifx_discovery_start spec_constants env_ok [] (discovery_init spec_constants))
        [⟨env_ok, [example_gateway]⟩, ⟨env_ok, [example_gateway]⟩, ⟨env_ok, []⟩,
         ⟨env_ok, [example_gateway]⟩]).lgtd_discovery_timeout = 4000 ∧
    (2000 : Int) ≤ (discovery_run spec_constants
        (lgtd_lifx_discovery_start spec_constants env_ok [] (discovery_init spec_constants))
        [⟨env_ok, [example_gateway]⟩, ⟨env_ok, [example_gateway]⟩, ⟨env_ok, []⟩,
         ⟨env_ok, [example_gateway]⟩]).lgtd_discovery_timeout ∧
    (discovery_run spec_constants
        (lgtd_lifx_discovery_start spec_constants env_ok [] (discovery_init spec_constants))
        [⟨env_ok, [example_gateway]⟩, ⟨env_ok, [example_gateway]⟩, ⟨env_ok, []⟩,
         ⟨env_ok, [example_gateway]⟩]).lgtd_discovery_timeout ≤ 60000 ∧
    (discovery_run spec_constants
        (lgtd_lifx_discovery_start spec_constants env_ok [] (discovery_init spec_constants))
        [⟨env_ok, [example_gateway]⟩, ⟨env_ok, [example_gateway]⟩, ⟨env_ok, []⟩,
         ⟨env_ok, [example_gateway]⟩]).lgtd_discovery_timeout * 2 ≤ INT_MAX :=
  have h := discovery_interval_bounds spec_constants (by decide) env_ok []
    (discovery_init spec_constants)
    [⟨env_ok, [example_gateway]⟩, ⟨env_ok, [example_gateway]⟩, ⟨env_ok, []⟩,
     ⟨env_ok, [example_gateway]⟩] rfl
  ⟨by decide, by decide, h.1, h.2.1, h.2.2.2.2.1⟩

end Lightsd
